import Mathlib

/-!
AtongAni frontend: routing, session handling and order polling

A shallow embedding of the client code of the farmers-market application
(App.jsx, pages/Login.jsx, pages/Dashboard.jsx, components/OrdersView.jsx,
api/orders.js) together with theorems about it.

Conventions of the embedding.

* React state is a record; a state setter is a record update, and the values a
  handler reads (its closure) are the fields of the record it was called with.
* Every observable action of a handler (network call, storage write, navigation,
  state setter) is appended, in program order, to the trace of the World.
* An awaited call is a call whose outcome is supplied by the Api record: the
  modules api/auth and api/client are outside the sources, so the outcome of
  each request is a parameter.  A resolved promise is Except.ok with the part of
  the response body the caller reads, a rejected one is Except.error with the
  thrown value.
* Error bodies are untyped JSON values, since the code inspects their shape.
-/

set_option autoImplicit false

namespace AtongAni

/-! ## JavaScript values and strings -/

/-- JSON-like JavaScript values.  Numbers are the integral ones; the fields of an
object are listed in own-property enumeration order (the order of Object.keys). -/
inductive JsVal where
  | undefined
  | null
  | bool (b : Bool)
  | num (n : Int)
  | str (s : String)
  | arr (items : List JsVal)
  | obj (fields : List (String × JsVal))
  deriving Inhabited

/-- Decimal digits of a natural number, most significant first, in front of acc. -/
def natDigits : Nat → Nat → List Char → List Char
  | 0, _, acc => acc
  | fuel + 1, n, acc =>
    if n / 10 = 0 then Char.ofNat (48 + n % 10) :: acc
    else natDigits fuel (n / 10) (Char.ofNat (48 + n % 10) :: acc)

/-- Number-to-string conversion of an integral number. -/
def intToStr : Int → String
  | Int.ofNat n => String.mk (natDigits (n + 1) n [])
  | Int.negSucc n => String.mk ('-' :: natDigits (n + 2) (n + 1) [])

namespace JsVal

/-- ToBoolean: the falsy values are undefined, null, false, 0 and the empty string. -/
def truthy : JsVal → Bool
  | undefined => false
  | null => false
  | bool b => b
  | num n => n != 0
  | str s => s != ""
  | arr _ => true
  | obj _ => true

mutual
/-- ToString, as a template literal applies it. -/
def toStr : JsVal → String
  | undefined => "undefined"
  | null => "null"
  | bool b => if b then "true" else "false"
  | num n => intToStr n
  | str s => s
  | arr items => joinItems items
  | obj _ => "[object Object]"
termination_by structural v => v
/-- Array.prototype.join with a comma: undefined and null elements print as the
empty string. -/
def joinItems : List JsVal → String
  | [] => ""
  | v :: rest =>
    (match v with
      | undefined => ""
      | null => ""
      | w => toStr w) ++ (match rest with
      | [] => ""
      | _ :: _ => "," ++ joinItems rest)
termination_by structural l => l
end

/-- The test typeof v === "string". -/
def isString : JsVal → Bool
  | str _ => true
  | _ => false

/-- The test typeof v === "object" (true also of null and of arrays). -/
def isObjectType : JsVal → Bool
  | null => true
  | arr _ => true
  | obj _ => true
  | _ => false

/-- Array.isArray. -/
def isArray : JsVal → Bool
  | arr _ => true
  | _ => false

/-- Own enumerable string-keyed properties, as Object.entries lists them: the
fields of an object, the indexed elements of an array, nothing for undefined,
null, a boolean or a number.  (The code never enumerates a string: extractError
returns a string body before this point, the registration catch block enumerates
only values whose typeof is object.) -/
def entries : JsVal → List (String × JsVal)
  | obj fields => fields
  | arr items => items.enum.map (fun p => (intToStr (Int.ofNat p.1), p.2))
  | _ => []

/-- Object.keys. -/
def keys (v : JsVal) : List String :=
  v.entries.map Prod.fst

/-- Property read v[k] on a value that is neither undefined nor null; a property
that is not an own property reads as undefined. -/
def getProp (v : JsVal) (k : String) : JsVal :=
  match v.entries.find? (fun p => p.1 == k) with
  | some p => p.2
  | none => undefined

/-- Indexed read v[0] of an array: undefined when the array is empty. -/
def first : JsVal → JsVal
  | arr (x :: _) => x
  | _ => undefined

end JsVal

/-- WhiteSpace and LineTerminator code points, the ones String.prototype.trim strips. -/
def isJsSpace (c : Char) : Bool :=
  let n := c.toNat
  n == 0x09 || n == 0x0A || n == 0x0B || n == 0x0C || n == 0x0D || n == 0x20 ||
  n == 0xA0 || n == 0x1680 || (0x2000 ≤ n && n ≤ 0x200A) || n == 0x2028 ||
  n == 0x2029 || n == 0x202F || n == 0x205F || n == 0x3000 || n == 0xFEFF

/-- String.prototype.trim. -/
def jsTrim (s : String) : String :=
  String.mk ((s.data.dropWhile isJsSpace).reverse.dropWhile isJsSpace).reverse

/-- The length property of a string: its number of UTF-16 code units. -/
def jsLength (s : String) : Nat :=
  (s.data.map (fun c => if c.toNat < 0x10000 then 1 else 2)).sum

/-- Array.prototype.join for strings. -/
def jsJoin (sep : String) : List String → String
  | [] => ""
  | [x] => x
  | x :: y :: rest => x ++ sep ++ jsJoin sep (y :: rest)

/-! ## Browser state: localStorage, the API client token, the location -/

/-- The localStorage of the page: keys with their string values. -/
abbrev Storage := List (String × String)

namespace Storage

/-- The call localStorage.getItem(key): none stands for null. -/
def getItem (ls : Storage) (key : String) : Option String :=
  (ls.find? (fun p => p.1 == key)).map Prod.snd

/-- The call localStorage.removeItem(key). -/
def removeItem (ls : Storage) (key : String) : Storage :=
  ls.filter (fun p => p.1 != key)

/-- The call localStorage.setItem(key, value). -/
def setItem (ls : Storage) (key value : String) : Storage :=
  (key, value) :: removeItem ls key

end Storage

/-- The negation !token of a value read from localStorage: true of null and of
the empty string. -/
def tokenMissing : Option String → Bool
  | none => true
  | some t => t == ""

/-! ## App.jsx -/

/-- What a route renders: one of the three pages, or a Navigate element. -/
inductive Element where
  | welcome
  | login
  | dashboard
  | navigate (target : String) (replace : Bool)
  deriving DecidableEq, Repr

/-- ProtectedRoute of App.jsx. -/
def ProtectedRoute (ls : Storage) (children : Element) : Element :=
  if tokenMissing (ls.getItem "accessToken") then Element.navigate "/login" true
  else children

/-- The letter-case folding of the route matcher, which compares without regard
to case: an ASCII lower-case letter becomes its upper-case letter.  The route
paths of App consist of ASCII characters, and a character outside ASCII is never
folded onto an ASCII one, so for these paths this is the whole of the folding. -/
def foldCase (c : Char) : Char :=
  if 'a' ≤ c ∧ c ≤ 'z' then Char.ofNat (c.toNat - 32) else c

/-- The text a static route path is compiled to by the router: trailing slashes
dropped, one leading slash. -/
def routeCore (pattern : String) : List Char :=
  '/' :: ((pattern.data.reverse.dropWhile (fun c => c == '/')).reverse.dropWhile
    (fun c => c == '/'))

/-- The match of a pathname against a static route path, as the Route elements of
App.jsx are matched (no caseSensitive prop, matching to the end): the pathname is
the compiled path, compared without regard to case, followed by any number of
slashes. -/
def matchStatic (pattern pathname : String) : Bool :=
  ((pathname.data.take (routeCore pattern).length).map foldCase ==
      (routeCore pattern).map foldCase) &&
    (pathname.data.drop (routeCore pattern).length).all (fun c => c == '/')

/-- The pathname the routes are matched against: that of the location (a URL
pathname), the empty one counting as the root. -/
def locationPathname (path : String) : String :=
  if path = "" then "/" else path

/-- The route table of App: the element rendered for a requested path.  The three
static routes exclude one another, and the star route takes every pathname that
none of them matches. -/
def App (ls : Storage) (path : String) : Element :=
  if matchStatic "/" (locationPathname path) then Element.welcome
  else if matchStatic "/login" (locationPathname path) then Element.login
  else if matchStatic "/dashboard" (locationPathname path) then
    ProtectedRoute ls Element.dashboard
  else Element.navigate "/login" true

/-! ## Requests and their outcomes -/

/-- A value thrown by a rejected request: response is the data of err.response
when the error carries a response, none when it carries none (a network failure). -/
structure JsErr where
  response : Option JsVal

/-- The expression err?.response?.data. -/
def JsErr.data (err : JsErr) : JsVal :=
  match err.response with
  | none => JsVal.undefined
  | some d => d

/-- The user record of the who-am-I endpoint. -/
structure User where
  id : Nat
  username : String
  role : String
  email : String
  date_joined : String
  deriving DecidableEq, Repr

/-- The body of a registration request; farm_name is none when the key is not
part of the object. -/
structure RegisterPayload where
  username : String
  email : String
  password : String
  first_name : String
  last_name : String
  farm_name : Option String
  deriving DecidableEq, Repr

/-- The outcomes of the requests of api/auth, one per request a handler can send:
login resolves with res.data.access, me with res.data. -/
structure Api where
  login : String → String → Except JsErr String
  me : Except JsErr User
  registerCustomer : RegisterPayload → Except JsErr Unit
  registerFarmer : RegisterPayload → Except JsErr Unit

/-- The actions of a handler that leave the component, in the order performed. -/
inductive Effect where
  | preventDefault
  | login (username password : String)
  | me
  | registerCustomer (payload : RegisterPayload)
  | registerFarmer (payload : RegisterPayload)
  | storageSetItem (key value : String)
  | setAuthToken (token : String)
  | clearAuthToken
  | navigate (target : String)
  | consoleLog
  deriving DecidableEq, Repr

/-- Requests sent to the backend. -/
def Effect.isNetworkCall : Effect → Bool
  | Effect.login _ _ => true
  | Effect.me => true
  | Effect.registerCustomer _ => true
  | Effect.registerFarmer _ => true
  | _ => false

/-- Actions that hand a token to the session: a storage write or setAuthToken. -/
def Effect.storesToken : Effect → Bool
  | Effect.storageSetItem _ _ => true
  | Effect.setAuthToken _ => true
  | _ => false

/-- Calls of navigate. -/
def Effect.isNavigate : Effect → Bool
  | Effect.navigate _ => true
  | _ => false

/-- The browser side of the session: localStorage, the token held by the API
client, the current pathname, and the trace of actions so far. -/
structure World where
  localStorage : Storage
  authToken : Option String
  location : String
  trace : List Effect
  deriving DecidableEq, Repr

namespace World

/-- Append one action to the trace. -/
def emit (w : World) (e : Effect) : World :=
  { w with trace := w.trace ++ [e] }

/-- The call localStorage.setItem(key, value). -/
def storageSetItem (key value : String) (w : World) : World :=
  { w.emit (Effect.storageSetItem key value) with
    localStorage := w.localStorage.setItem key value }

/-- Modelled from the spec: setAuthToken of api/client, which is not among the
sources.  Section 4.1: setToken(token) persists the token, with a durable storage
write on every mutation; the durable state is one string under a fixed key.  At
every call in the sources the token passed is the one already stored under that
key, so this write does not change what getItem returns. -/
def setAuthToken (token : String) (w : World) : World :=
  { w.emit (Effect.setAuthToken token) with
    authToken := some token
    localStorage := w.localStorage.setItem "accessToken" token }

/-- Modelled from the spec: clearAuthToken of api/client, which is not among the
sources.  Section 4.1: clearToken() removes the token, with a durable storage
delete. -/
def clearAuthToken (w : World) : World :=
  { w.emit Effect.clearAuthToken with
    authToken := none
    localStorage := w.localStorage.removeItem "accessToken" }

/-- The call navigate(target) of the router. -/
def navigate (target : String) (w : World) : World :=
  { w.emit (Effect.navigate target) with location := target }

/-- The Session Store holds no token: neither the durable key nor the client. -/
def sessionEmpty (w : World) : Prop :=
  w.localStorage.getItem "accessToken" = none ∧ w.authToken = none

end World

/-! ## pages/Login.jsx -/

/-- The state of the Login component. -/
structure LoginState where
  mode : String
  username : String
  password : String
  email : String
  firstName : String
  lastName : String
  confirmPassword : String
  farmName : String
  status : String
  error : JsVal

namespace Login

/-- The initial state of the component (the useState defaults). -/
def init : LoginState :=
  { mode := "login", username := "", password := "", email := "", firstName := "",
    lastName := "", confirmPassword := "", farmName := "", status := "",
    error := JsVal.str "" }

/-- State setter setStatus. -/
def setStatus (s : String) (c : LoginState) : LoginState :=
  { c with status := s }

/-- State setter setError. -/
def setError (e : JsVal) (c : LoginState) : LoginState :=
  { c with error := e }

/-- Function resetMessages of Login.jsx. -/
def resetMessages (c : LoginState) : LoginState :=
  setError (JsVal.str "") (setStatus "" c)

/-- The mount effect of Login: a stored token is handed to the API client. -/
def mountEffect (w : World) : World :=
  match w.localStorage.getItem "accessToken" with
  | none => w
  | some token => if token = "" then w else w.setAuthToken token

/-- Function switchMode of Login.jsx. -/
def switchMode (nextMode : String) (c : LoginState) : LoginState :=
  { resetMessages c with
    mode := nextMode, password := "", confirmPassword := "", firstName := "",
    lastName := "", farmName := "" }

/-- Function extractError of Login.jsx. -/
def extractError (err : JsErr) (fallback : String) : JsVal :=
  let data := err.data
  if !data.truthy then JsVal.str fallback
  else if data.isString then data
  else if (data.getProp "detail").truthy then data.getProp "detail"
  else
    match data.keys.head? with
    | none => JsVal.str fallback
    | some firstKey =>
      if firstKey != "" && (data.getProp firstKey).isArray then
        (data.getProp firstKey).first
      else JsVal.str fallback

/-- The catch block of handleLoginSubmit. -/
def loginCatch (err : JsErr) (c : LoginState) : LoginState :=
  setError (extractError err "Login failed. Check username/password.") (setStatus "" c)

/-- Function handleLoginSubmit of Login.jsx. -/
def handleLoginSubmit (api : Api) (c : LoginState) (w : World) : LoginState × World :=
  let w0 := w.emit Effect.preventDefault
  let c0 := setStatus "Logging in..." (resetMessages c)
  let w1 := w0.emit (Effect.login c.username c.password)
  match api.login c.username c.password with
  | Except.error err => (loginCatch err c0, w1)
  | Except.ok access =>
    let w2 := ((w1.storageSetItem "accessToken" access).setAuthToken access).emit Effect.me
    match api.me with
    | Except.error err => (loginCatch err c0, w2)
    | Except.ok meData =>
      (setStatus ("Logged in as " ++ meData.username ++ " (" ++ meData.role ++ ")") c0,
        w2.navigate "/dashboard")

/-- One entry of the error list built in the catch block of the registration
handlers: the field, a colon, and the first message (or the value itself when it
is not an array). -/
def fieldErrorEntry (p : String × JsVal) : String :=
  p.1 ++ ": " ++ (if p.2.isArray then p.2.first else p.2).toStr

/-- The message computed by the catch block of the registration handlers. -/
def registrationError (err : JsErr) : JsVal :=
  let fieldErrors := err.data
  if fieldErrors.truthy && fieldErrors.isObjectType then
    let errorList := jsJoin ", " (fieldErrors.entries.map fieldErrorEntry)
    if errorList != "" then JsVal.str errorList
    else JsVal.str "Registration failed. Check all fields."
  else extractError err "Registration failed. Try a different username/email."

/-- The catch block of handleRegisterSubmit and of handleFarmerRegisterSubmit. -/
def registerCatch (err : JsErr) (c : LoginState) : LoginState :=
  setError (registrationError err) (setStatus "" c)

/-- The end of the try block of both registration handlers, after the
registration request has resolved: log in with the form values, store the token,
confirm the identity, enter the dashboard. -/
def loginAfterRegister (api : Api) (username password : String) (c : LoginState)
    (w : World) : LoginState × World :=
  let w1 := w.emit (Effect.login username password)
  match api.login username password with
  | Except.error err => (registerCatch err c, w1)
  | Except.ok access =>
    let w2 := ((w1.storageSetItem "accessToken" access).setAuthToken access).emit Effect.me
    match api.me with
    | Except.error err => (registerCatch err c, w2)
    | Except.ok _ => (c, w2.navigate "/dashboard")

/-- The payload object built by handleRegisterSubmit. -/
def registerPayload (c : LoginState) : RegisterPayload :=
  { username := jsTrim c.username, email := jsTrim c.email, password := c.password,
    first_name := jsTrim c.firstName, last_name := jsTrim c.lastName,
    farm_name := none }

/-- The payload object built by handleFarmerRegisterSubmit. -/
def farmerPayload (c : LoginState) : RegisterPayload :=
  { username := jsTrim c.username, email := jsTrim c.email, password := c.password,
    first_name := jsTrim c.firstName, last_name := jsTrim c.lastName,
    farm_name := some (jsTrim c.farmName) }

/-- Function handleRegisterSubmit of Login.jsx. -/
def handleRegisterSubmit (api : Api) (c : LoginState) (w : World) : LoginState × World :=
  let w0 := w.emit Effect.preventDefault
  let c0 := resetMessages c
  if jsTrim c.username = "" then (setError (JsVal.str "Username is required.") c0, w0)
  else if jsTrim c.email = "" then (setError (JsVal.str "Email is required.") c0, w0)
  else if jsTrim c.firstName = "" then (setError (JsVal.str "First name is required.") c0, w0)
  else if jsTrim c.lastName = "" then (setError (JsVal.str "Last name is required.") c0, w0)
  else if jsLength c.password < 8 then
    (setError (JsVal.str "Password must be at least 8 characters.") c0, w0)
  else if c.password ≠ c.confirmPassword then
    (setError (JsVal.str "Passwords do not match.") c0, w0)
  else
    let c1 := setStatus "Creating account..." c0
    let payload := registerPayload c
    if c.mode = "register-farmer" then
      match api.registerFarmer payload with
      | Except.error err => (registerCatch err c1, w0.emit (Effect.registerFarmer payload))
      | Except.ok _ =>
        loginAfterRegister api c.username c.password
          (setStatus "Account created! Logging you in..." c1)
          (w0.emit (Effect.registerFarmer payload))
    else
      match api.registerCustomer payload with
      | Except.error err => (registerCatch err c1, w0.emit (Effect.registerCustomer payload))
      | Except.ok _ =>
        loginAfterRegister api c.username c.password
          (setStatus "Account created! Logging you in..." c1)
          (w0.emit (Effect.registerCustomer payload))

/-- Function handleFarmerRegisterSubmit of Login.jsx. -/
def handleFarmerRegisterSubmit (api : Api) (c : LoginState) (w : World) :
    LoginState × World :=
  let w0 := w.emit Effect.preventDefault
  let c0 := resetMessages c
  if jsTrim c.username = "" then (setError (JsVal.str "Username is required.") c0, w0)
  else if jsTrim c.email = "" then (setError (JsVal.str "Email is required.") c0, w0)
  else if jsTrim c.firstName = "" then (setError (JsVal.str "First name is required.") c0, w0)
  else if jsTrim c.lastName = "" then (setError (JsVal.str "Last name is required.") c0, w0)
  else if jsTrim c.farmName = "" then (setError (JsVal.str "Farm name is required.") c0, w0)
  else if jsLength c.password < 8 then
    (setError (JsVal.str "Password must be at least 8 characters.") c0, w0)
  else if c.password ≠ c.confirmPassword then
    (setError (JsVal.str "Passwords do not match.") c0, w0)
  else
    let c1 := setStatus "Creating farmer account..." c0
    let payload := farmerPayload c
    match api.registerFarmer payload with
    | Except.error err => (registerCatch err c1, w0.emit (Effect.registerFarmer payload))
    | Except.ok _ =>
      loginAfterRegister api c.username c.password
        (setStatus "Farm account created! Logging you in..." c1)
        (w0.emit (Effect.registerFarmer payload))

/-- The submit event of the form that the render shows for the mode: the login
form calls handleLoginSubmit, the customer registration form handleRegisterSubmit,
the farmer registration form handleFarmerRegisterSubmit.  These bindings are the
only calls of the three handlers, which are local to the component; for any other
value of mode no form is rendered. -/
def submit (api : Api) (c : LoginState) (w : World) : LoginState × World :=
  if c.mode = "login" then handleLoginSubmit api c w
  else if c.mode = "register-customer" then handleRegisterSubmit api c w
  else if c.mode = "register-farmer" then handleFarmerRegisterSubmit api c w
  else (c, w)

end Login

/-! ## pages/Dashboard.jsx -/

/-- The state of the Dashboard component. -/
structure DashboardState where
  user : Option User
  status : String
  activeTab : String
  refreshFeed : Nat
  deriving DecidableEq, Repr

/-- The content panels of the dashboard. -/
inductive Panel where
  | feed
  | myPosts
  | farmerOrders
  | cart
  | customerOrders
  | admin
  | profile
  deriving DecidableEq, Repr

/-- What the Dashboard component renders. -/
inductive DashboardView where
  | loading (status : String)
  | page (tabs : List String) (panels : List Panel)
  deriving DecidableEq, Repr

namespace Dashboard

/-- The initial state of the component (the useState defaults). -/
def init : DashboardState :=
  { user := none, status := "Loading...", activeTab := "feed", refreshFeed := 0 }

/-- The mount effect of Dashboard: the useEffect with the empty dependency list,
followed to the settlement of the me() promise. -/
def mountEffect (api : Api) (d : DashboardState) (w : World) : DashboardState × World :=
  match w.localStorage.getItem "accessToken" with
  | none => (d, w.navigate "/login")
  | some token =>
    if token = "" then (d, w.navigate "/login")
    else
      let w1 := (w.setAuthToken token).emit Effect.me
      match api.me with
      | Except.ok data => ({ d with user := some data, status := "" }, w1)
      | Except.error _ =>
        (d, ((w1.emit Effect.consoleLog).clearAuthToken).navigate "/login")

/-- Function handleLogout of Dashboard.jsx. -/
def handleLogout (w : World) : World :=
  w.clearAuthToken.navigate "/login"

/-- Function handlePostCreated of Dashboard.jsx. -/
def handlePostCreated (d : DashboardState) : DashboardState :=
  { d with refreshFeed := d.refreshFeed + 1, activeTab := "feed" }

/-- The tab buttons of the navigation bar, by the value each one gives to
activeTab, in document order. -/
def tabButtons (role : String) : List String :=
  ["feed"] ++ (if role = "FARMER" then ["myPosts", "orders"] else []) ++ ["cart"] ++
  (if role = "CUSTOMER" then ["orders"] else []) ++
  (if role = "ADMIN" then ["admin"] else []) ++ ["profile"]

/-- The panels of the main element, in document order. -/
def tabContent (activeTab role : String) : List Panel :=
  (if activeTab = "feed" then [Panel.feed] else []) ++
  (if activeTab = "myPosts" ∧ role = "FARMER" then [Panel.myPosts] else []) ++
  (if activeTab = "orders" ∧ role = "FARMER" then [Panel.farmerOrders] else []) ++
  (if activeTab = "cart" then [Panel.cart] else []) ++
  (if activeTab = "orders" ∧ role = "CUSTOMER" then [Panel.customerOrders] else []) ++
  (if activeTab = "admin" ∧ role = "ADMIN" then [Panel.admin] else []) ++
  (if activeTab = "profile" then [Panel.profile] else [])

/-- The render of Dashboard: the loading guard, then tabs and content. -/
def render (d : DashboardState) : DashboardView :=
  match d.user with
  | none => DashboardView.loading d.status
  | some user => DashboardView.page (tabButtons user.role) (tabContent d.activeTab user.role)

/-- The events that change activeTab: a click on a tab button, and the
onPostCreated callback of the farmer post form. -/
inductive TabEvent where
  | clickTab (tab : String)
  | postCreated
  deriving DecidableEq, Repr

/-- One event applied to the state.  A tab button can be clicked only when it is
rendered: the user record is loaded and the button is among those of the role.
The callback runs handlePostCreated. -/
def step (d : DashboardState) : TabEvent → DashboardState
  | TabEvent.clickTab tab =>
    match d.user with
    | none => d
    | some user => if tab ∈ tabButtons user.role then { d with activeTab := tab } else d
  | TabEvent.postCreated => handlePostCreated d

/-- Run a list of events. -/
def run (d : DashboardState) (events : List TabEvent) : DashboardState :=
  events.foldl step d

/-- The state once the mount effect has loaded the user record. -/
def loaded (user : User) : DashboardState :=
  { init with user := some user, status := "" }

end Dashboard

/-! ## components/OrdersView.jsx -/

/-- One line of an order, as the orders endpoint returns it. -/
structure OrderItem where
  id : Nat
  post_title : String
  farmer_name : String
  quantity : String
  unit : String
  total_price : String
  deriving DecidableEq, Repr

/-- An order, as the orders endpoint returns it; rejection_reason is none when
the key is absent or null. -/
structure Order where
  id : Nat
  status : String
  created_at : String
  total_amount : String
  items : List OrderItem
  rejection_reason : Option String
  deriving DecidableEq, Repr

/-- The state of the OrdersView component. -/
structure OrdersState where
  orders : List Order
  loading : Bool
  error : String
  expandedOrder : Option Nat
  deriving DecidableEq, Repr

/-- The settlement of one getOrders() call: resolved with res.data (none when the
body is absent), or rejected. -/
abbrev FetchResult := Except JsErr (Option (List Order))

/-- The expanded part of an order card. -/
structure OrderDetails where
  items : List OrderItem
  rejectionNote : Option String
  inProgressNote : Bool
  approvedNote : Bool
  deriving DecidableEq, Repr

/-- One order card of the list. -/
structure OrderCard where
  orderId : Nat
  statusClass : String
  statusIcon : String
  statusText : String
  createdAt : String
  totalAmount : String
  details : Option OrderDetails
  deriving DecidableEq, Repr

/-- The part of the page under the heading. -/
inductive OrdersBody where
  | emptyOrders
  | ordersList (cards : List OrderCard)
  deriving DecidableEq, Repr

/-- What the OrdersView component renders. -/
inductive OrdersViewNode where
  | loading
  | page (errorBanner : Option String) (body : OrdersBody)
  deriving DecidableEq, Repr

namespace OrdersView

/-- The initial state of the component (the useState defaults). -/
def init : OrdersState :=
  { orders := [], loading := true, error := "", expandedOrder := none }

/-- Function loadOrders of OrdersView.jsx, from the settlement of its getOrders()
call on: the try, catch and finally blocks applied to the state. -/
def loadOrders (res : FetchResult) (s : OrdersState) : OrdersState :=
  let s1 :=
    match res with
    | Except.ok data => { s with orders := data.getD [], error := "" }
    | Except.error _ => { s with error := "Failed to load orders" }
  { s1 with loading := false }

/-- The click handler of an order card. -/
def toggleExpanded (orderId : Nat) (s : OrdersState) : OrdersState :=
  { s with expandedOrder := if s.expandedOrder = some orderId then none else some orderId }

/-- The state after a sequence of settlements, applied in the order in which
they resolve. -/
def applyResults (s : OrdersState) (results : List FetchResult) : OrdersState :=
  results.foldl (fun st r => loadOrders r st) s

/-- Function getStatusColor of OrdersView.jsx. -/
def getStatusColor (status : String) : String :=
  if status = "IN_PROGRESS" then "status-in-progress"
  else if status = "APPROVED" then "status-approved"
  else if status = "REJECTED" then "status-rejected"
  else if status = "COMPLETED" then "status-completed"
  else "status-pending"

/-- Function getStatusIcon of OrdersView.jsx. -/
def getStatusIcon (status : String) : String :=
  if status = "IN_PROGRESS" then "⏳"
  else if status = "APPROVED" then "✅"
  else if status = "REJECTED" then "❌"
  else if status = "COMPLETED" then "🎉"
  else "📋"

/-- The rejection note of an expanded order: present when the status is REJECTED
and the reason is truthy. -/
def rejectionNote (order : Order) : Option String :=
  if order.status = "REJECTED" then
    match order.rejection_reason with
    | none => none
    | some r => if r = "" then none else some r
  else none

/-- The details block of a card, rendered when the order is the expanded one. -/
def orderDetails (order : Order) : OrderDetails :=
  { items := order.items
    rejectionNote := rejectionNote order
    inProgressNote := order.status = "IN_PROGRESS"
    approvedNote := order.status = "APPROVED" }

/-- The card of one order. -/
def orderCard (expandedOrder : Option Nat) (order : Order) : OrderCard :=
  { orderId := order.id
    statusClass := getStatusColor order.status
    statusIcon := getStatusIcon order.status
    statusText := order.status
    createdAt := order.created_at
    totalAmount := order.total_amount
    details := if expandedOrder = some order.id then some (orderDetails order) else none }

/-- The render of OrdersView: the loading guard, then the error banner and the
list or the empty-orders message. -/
def render (s : OrdersState) : OrdersViewNode :=
  if s.loading then OrdersViewNode.loading
  else
    OrdersViewNode.page (if s.error = "" then none else some s.error)
      (if s.orders.length = 0 then OrdersBody.emptyOrders
       else OrdersBody.ordersList (s.orders.map (orderCard s.expandedOrder)))

/-- The rejection reasons that a rendered view shows: those of the rejection
notes of its cards. -/
def shownRejectionReasons : OrdersViewNode → List String
  | OrdersViewNode.loading => []
  | OrdersViewNode.page _ OrdersBody.emptyOrders => []
  | OrdersViewNode.page _ (OrdersBody.ordersList cards) =>
    cards.filterMap (fun card => card.details.bind (fun d => d.rejectionNote))

end OrdersView

/-! ### The polling effect as a step model -/

/-- The function a timer calls. -/
inductive Callback where
  | loadOrders
  deriving DecidableEq, Repr

/-- An interval registered with setInterval. -/
structure Timer where
  id : Nat
  delay : Nat
  callback : Callback
  deriving DecidableEq, Repr

/-- The life of one component instance. -/
inductive Phase where
  | fresh
  | mounted
  | unmounted
  deriving DecidableEq, Repr

/-- One OrdersView instance with the timers of the page: the component state,
the registered intervals, the next interval id, the interval id held by the
cleanup closure of the effect, and the numbers of getOrders() calls started and
settled. -/
structure OrdersSys where
  view : OrdersState
  phase : Phase
  timers : List Timer
  nextTimerId : Nat
  cleanup : Option Nat
  fetchesStarted : Nat
  fetchesSettled : Nat
  deriving DecidableEq, Repr

/-- The events of the model: the component mounts, the interval with the given
id fires, the component unmounts, a pending fetch settles with a result. -/
inductive OrdersEvent where
  | mount
  | tick (timerId : Nat)
  | unmount
  | settle (res : FetchResult)

namespace OrdersSys

/-- A new instance on a page with no interval registered. -/
def init (firstTimerId : Nat) : OrdersSys :=
  { view := OrdersView.init, phase := Phase.fresh, timers := [],
    nextTimerId := firstTimerId, cleanup := none, fetchesStarted := 0, fetchesSettled := 0 }

/-- A call of loadOrders up to its await: one getOrders() request is sent. -/
def startFetch (s : OrdersSys) : OrdersSys :=
  { s with fetchesStarted := s.fetchesStarted + 1 }

/-- The call setInterval(callback, delay): registers the interval under a new id. -/
def setInterval (callback : Callback) (delay : Nat) (s : OrdersSys) : OrdersSys × Nat :=
  ({ s with timers := s.timers ++ [{ id := s.nextTimerId, delay := delay, callback := callback }],
            nextTimerId := s.nextTimerId + 1 }, s.nextTimerId)

/-- The call clearInterval(id). -/
def clearInterval (id : Nat) (s : OrdersSys) : OrdersSys :=
  { s with timers := s.timers.filter (fun t => t.id != id) }

/-- The body of the useEffect of OrdersView: call loadOrders, register the
interval, return the cleanup that clears it. -/
def runEffect (s : OrdersSys) : OrdersSys :=
  let s1 := startFetch s
  let r := setInterval Callback.loadOrders 5000 s1
  { r.1 with cleanup := some r.2, phase := Phase.mounted }

/-- The cleanup returned by the effect. -/
def runCleanup (s : OrdersSys) : OrdersSys :=
  match s.cleanup with
  | none => { s with phase := Phase.unmounted }
  | some id => { clearInterval id s with phase := Phase.unmounted }

/-- One step of the model. -/
def step (s : OrdersSys) : OrdersEvent → OrdersSys
  | OrdersEvent.mount =>
    if s.phase = Phase.fresh then runEffect s else s
  | OrdersEvent.tick timerId =>
    match s.timers.find? (fun t => t.id == timerId) with
    | some t =>
      match t.callback with
      | Callback.loadOrders => startFetch s
    | none => s
  | OrdersEvent.unmount =>
    if s.phase = Phase.mounted then runCleanup s else s
  | OrdersEvent.settle res =>
    if s.fetchesSettled < s.fetchesStarted then
      { s with view := OrdersView.loadOrders res s.view, fetchesSettled := s.fetchesSettled + 1 }
    else s

/-- Run a list of events. -/
def run (s : OrdersSys) (events : List OrdersEvent) : OrdersSys :=
  events.foldl step s

/-- The states reachable from a new instance. -/
def Reachable (s : OrdersSys) : Prop :=
  ∃ firstTimerId events, s = run (init firstTimerId) events

/-- The invariant of the model: a fresh instance has no interval and no fetch, a
mounted one has exactly the interval of its cleanup closure, an unmounted one has
none; the loading flag is set exactly while no fetch has settled. -/
def Inv (s : OrdersSys) : Prop :=
  (s.phase = Phase.fresh → s.timers = [] ∧ s.fetchesStarted = 0) ∧
  (s.phase = Phase.mounted →
    ∃ id, s.cleanup = some id ∧
      s.timers = [{ id := id, delay := 5000, callback := Callback.loadOrders }]) ∧
  (s.phase = Phase.unmounted → s.timers = []) ∧
  (s.view.loading = true ↔ s.fetchesSettled = 0) ∧
  s.fetchesSettled ≤ s.fetchesStarted

end OrdersSys

/-! ## api/orders.js -/

/-- A call of the API client: api.get(path) or api.post(path, body); body is none
when no body argument is passed. -/
structure Request where
  method : String
  path : String
  body : Option JsVal

/-- The requests issued through the API client, in the order of the calls. -/
abbrev RequestLog := List Request

/-- The call api.get(path): the client module is outside the sources, and a call
of it is taken as the one request it names. -/
def apiGet (path : String) (log : RequestLog) : RequestLog :=
  log ++ [{ method := "GET", path := path, body := none }]

/-- The call api.post(path, body), taken the same way. -/
def apiPost (path : String) (body : Option JsVal) (log : RequestLog) : RequestLog :=
  log ++ [{ method := "POST", path := path, body := body }]

namespace Orders

/-- Function getOrders of api/orders.js. -/
def getOrders (log : RequestLog) : RequestLog :=
  apiGet "/api/orders/my_orders/" log

/-- Function getPendingOrders of api/orders.js. -/
def getPendingOrders (log : RequestLog) : RequestLog :=
  apiGet "/api/orders/my_pending_orders/" log

/-- Function getOrderDetail of api/orders.js. -/
def getOrderDetail (orderId : JsVal) (log : RequestLog) : RequestLog :=
  apiGet ("/api/orders/" ++ orderId.toStr ++ "/") log

/-- Function checkoutCart of api/orders.js. -/
def checkoutCart (log : RequestLog) : RequestLog :=
  apiPost "/api/orders/checkout/" none log

/-- Function approveOrder of api/orders.js. -/
def approveOrder (orderId : JsVal) (log : RequestLog) : RequestLog :=
  apiPost ("/api/orders/" ++ orderId.toStr ++ "/approve/") none log

/-- Function rejectOrder of api/orders.js; the default of the second parameter
applies when the argument is undefined, which is also how an omitted argument
arrives. -/
def rejectOrder (orderId : JsVal) (reason : JsVal) (log : RequestLog) : RequestLog :=
  let r :=
    match reason with
    | JsVal.undefined => JsVal.str ""
    | v => v
  apiPost ("/api/orders/" ++ orderId.toStr ++ "/reject/") (some (JsVal.obj [("reason", r)])) log

end Orders

/-! ## Specification-side definitions -/

/-- The new actions of a run that took the World from w to w2. -/
def effectsOf (w w2 : World) : List Effect :=
  w2.trace.drop w.trace.length

/-- The client-side conditions of a customer registration, in the words of the
specification: username, email, first and last name non-empty after trimming, a
password of length at least 8, and a matching confirmation. -/
def customerFormValid (c : LoginState) : Prop :=
  jsTrim c.username ≠ "" ∧ jsTrim c.email ≠ "" ∧ jsTrim c.firstName ≠ "" ∧
  jsTrim c.lastName ≠ "" ∧ 8 ≤ jsLength c.password ∧ c.password = c.confirmPassword

instance (c : LoginState) : Decidable (customerFormValid c) := by
  unfold customerFormValid
  infer_instance

/-- The client-side conditions of a farmer registration: those of a customer
registration and a farm name that is non-empty after trimming. -/
def farmerFormValid (c : LoginState) : Prop :=
  jsTrim c.username ≠ "" ∧ jsTrim c.email ≠ "" ∧ jsTrim c.firstName ≠ "" ∧
  jsTrim c.lastName ≠ "" ∧ jsTrim c.farmName ≠ "" ∧ 8 ≤ jsLength c.password ∧
  c.password = c.confirmPassword

instance (c : LoginState) : Decidable (farmerFormValid c) := by
  unfold farmerFormValid
  infer_instance

/-- The text msg occurs in the text shown. -/
def containsText (shown msg : String) : Prop :=
  msg.data <:+: shown.data

instance (shown msg : String) : Decidable (containsText shown msg) := by
  unfold containsText
  infer_instance

/-- A response body that maps field names to lists of messages. -/
def fieldErrorBody (fields : List (String × List String)) : JsVal :=
  JsVal.obj (fields.map (fun p => (p.1, JsVal.arr (p.2.map JsVal.str))))

/-- The entry shown for one field of such a body: the field, a colon, and the
first message of its list (the text undefined when the list is empty). -/
def firstMessageEntry (p : String × List String) : String :=
  p.1 ++ ": " ++
    (match p.2 with
      | [] => "undefined"
      | m :: _ => m)

/-- The data of the most recently resolved successful fetch of a sequence of
settlements listed in the order they resolved; none when none has succeeded. -/
def lastSuccessful : List FetchResult → Option (Option (List Order))
  | [] => none
  | r :: rest =>
    match lastSuccessful rest with
    | some d => some d
    | none =>
      match r with
      | Except.ok d => some d
      | Except.error _ => none

/-! ## Sample inputs -/

namespace Sample

/-- A customer. -/
def user : User :=
  { id := 1, username := "ana", role := "CUSTOMER", email := "ana@example.com",
    date_joined := "2024-01-01" }

/-- A backend on which every request succeeds. -/
def apiOk : Api :=
  { login := fun _ _ => Except.ok "tok", me := Except.ok user,
    registerCustomer := fun _ => Except.ok (), registerFarmer := fun _ => Except.ok () }

/-- A backend that accepts the credentials and then rejects the who-am-I call. -/
def apiMeFails : Api :=
  { apiOk with
    me := Except.error ⟨some (JsVal.obj [("detail", JsVal.str "Token expired")])⟩ }

/-- A backend that rejects the credentials. -/
def apiLoginFails : Api :=
  { apiOk with
    login := fun _ _ =>
      Except.error ⟨some (JsVal.obj [("detail", JsVal.str "No active account")])⟩ }

/-- A browser with empty storage, on the login page. -/
def world : World :=
  { localStorage := [], authToken := none, location := "/login", trace := [] }

/-- A browser holding a token, on the dashboard route. -/
def worldWithToken : World :=
  { localStorage := [("accessToken", "tok")], authToken := none, location := "/dashboard",
    trace := [] }

/-- A filled login form. -/
def loginForm : LoginState :=
  { Login.init with username := "ana", password := "password1" }

/-- A filled customer registration form. -/
def customerForm : LoginState :=
  { Login.init with
    mode := "register-customer", username := "ana", email := "ana@example.com",
    firstName := "Ana", lastName := "Cruz", password := "password1",
    confirmPassword := "password1" }

/-- A registration form in farmer mode whose farm name is empty, all other
fields filled. -/
def farmerFormNoFarm : LoginState :=
  { customerForm with mode := "register-farmer", farmName := "" }

/-- A backend that rejects a customer registration with two messages for one
field and one for another. -/
def apiRegisterRejected : Api :=
  { apiOk with
    registerCustomer := fun _ =>
      Except.error ⟨some (JsVal.obj
        [("username", JsVal.arr [JsVal.str "taken", JsVal.str "too short"]),
          ("email", JsVal.arr [JsVal.str "invalid"])])⟩ }

/-- An order awaiting approval. -/
def orderInProgress : Order :=
  { id := 1, status := "IN_PROGRESS", created_at := "2024-05-01", total_amount := "10.00",
    items := [], rejection_reason := none }

/-- The same order once approved. -/
def orderApproved : Order :=
  { orderInProgress with status := "APPROVED" }

/-- A rejected order with the reason of the specification. -/
def orderRejected : Order :=
  { orderInProgress with status := "REJECTED", rejection_reason := some "out of stock" }

/-- A backend that rejects the credentials with a body whose first field has an
empty list of messages. -/
def apiLoginEmptyList : Api :=
  { apiOk with
    login := fun _ _ => Except.error ⟨some (JsVal.obj [("username", JsVal.arr [])])⟩ }

/-- A backend that accepts the credentials with an empty access token and then
rejects the who-am-I call without a response. -/
def apiEmptyToken : Api :=
  { apiOk with login := fun _ _ => Except.ok "", me := Except.error ⟨none⟩ }

/-- A backend that accepts the credentials and then fails the who-am-I call
without a response. -/
def apiMeUnreachable : Api :=
  { apiOk with me := Except.error ⟨none⟩ }

/-- A customer registration form whose username has blanks around it. -/
def customerFormPadded : LoginState :=
  { customerForm with username := " ana " }

/-- A farmer registration form whose username has blanks around it. -/
def farmerFormPadded : LoginState :=
  { customerForm with mode := "register-farmer", username := " ana ", farmName := "Hill Farm" }

/-- A farmer. -/
def farmer : User :=
  { user with id := 2, username := "ben", role := "FARMER" }

/-- A filled farmer registration form. -/
def farmerForm : LoginState :=
  { customerForm with mode := "register-farmer", farmName := "Hill Farm" }

end Sample

/-! ## Lemmas on storage and traces -/

theorem Storage.getItem_setItem (ls : Storage) (k v : String) :
    (Storage.setItem ls k v).getItem k = some v := by
  simp [Storage.setItem, Storage.getItem]

theorem Storage.getItem_removeItem (ls : Storage) (k : String) :
    (Storage.removeItem ls k).getItem k = none := by
  simp [Storage.removeItem, Storage.getItem, List.find?_eq_none]

theorem effectsOf_append (w w2 : World) (l : List Effect) (h : w2.trace = w.trace ++ l) :
    effectsOf w w2 = l := by
  simp [effectsOf, h]

/-! ## Theorems -/

/-- The root route and the login route match no common pathname, nor do the root
route and the dashboard route, nor the login route and the dashboard route. -/
theorem matchStatic_exclusive (p : String) :
    (matchStatic "/" p = true → matchStatic "/login" p = false ∧
      matchStatic "/dashboard" p = false) ∧
    (matchStatic "/login" p = true → matchStatic "/dashboard" p = false) := by
  have hr : routeCore "/" = ['/'] := by decide
  have hl : routeCore "/login" = ['/', 'l', 'o', 'g', 'i', 'n'] := by decide
  have hd : routeCore "/dashboard" =
      ['/', 'd', 'a', 's', 'h', 'b', 'o', 'a', 'r', 'd'] := by decide
  have hs : foldCase '/' = '/' := by decide
  obtain ⟨data⟩ := p
  cases data with
  | nil => simp [matchStatic, hr, hl, hd]
  | cons a l =>
    cases l with
    | nil => simp [matchStatic, hr, hl, hd]
    | cons b l2 =>
      refine ⟨?_, ?_⟩
      · intro h
        have hb : b = '/' := by
          simp [matchStatic, hr] at h
          exact h.2.1
        subst hb
        simp [matchStatic, hl, hd, hs]
        constructor <;> (intro _ hx; exact absurd hx (by decide))
      · intro h
        have hb : foldCase b = 'L' := by
          simp [matchStatic, hl] at h
          have h2 := h.1.2.1
          rw [h2]
          decide
        simp [matchStatic, hd, hb]
        intro _ hx
        exact absurd hx (by decide)

/-- The element of the dashboard route, at the path as the route is written. -/
theorem app_at_dashboard (ls : Storage) :
    App ls "/dashboard" = ProtectedRoute ls Element.dashboard := by
  have h1 : matchStatic "/" (locationPathname "/dashboard") = false := by decide
  have h2 : matchStatic "/login" (locationPathname "/dashboard") = false := by decide
  have h3 : matchStatic "/dashboard" (locationPathname "/dashboard") = true := by decide
  simp [App, h1, h2, h3]

/-- What ProtectedRoute renders: its children exactly when the stored token is a
non-empty string, the redirect otherwise. -/
theorem protectedRoute_cases (ls : Storage) (children : Element) :
    ((∃ t, ls.getItem "accessToken" = some t ∧ t ≠ "") →
      ProtectedRoute ls children = children) ∧
    (tokenMissing (ls.getItem "accessToken") = true →
      ProtectedRoute ls children = Element.navigate "/login" true) ∧
    (tokenMissing (ls.getItem "accessToken") = true ↔
      ¬ ∃ t, ls.getItem "accessToken" = some t ∧ t ≠ "") := by
  cases h : ls.getItem "accessToken" with
  | none => simp [ProtectedRoute, tokenMissing, h]
  | some t => by_cases ht : t = "" <;> simp [ProtectedRoute, tokenMissing, h, ht]

/-- C1, as stated, fails.  The paths /dashboard/ and /Dashboard are none of the
three paths of the route table as written, and with a stored token they render
the Dashboard instead of redirecting; /LOGIN and /login/ render Login. -/
theorem C1_other_spellings_not_redirected :
    "/dashboard/" ≠ "/" ∧ "/dashboard/" ≠ "/login" ∧ "/dashboard/" ≠ "/dashboard" ∧
    App [("accessToken", "tok")] "/dashboard/" = Element.dashboard ∧
    App [("accessToken", "tok")] "/Dashboard" = Element.dashboard ∧
    App [("accessToken", "tok")] "/LOGIN" = Element.login ∧
    App [] "/login/" = Element.login := by
  decide

/-- C1, amended.  For every requested path and every stored-token state, with the
pathname matched against the route paths as the router does it, without regard to
letter case and to trailing slashes: a pathname that matches / renders Welcome,
one that matches /login renders Login, one that matches /dashboard renders the
Dashboard exactly when localStorage holds a non-empty accessToken and is a
redirect to /login otherwise, and a pathname that matches none of the three is a
redirect to /login.  The three paths as written are instances.  ProtectedRoute
does not render its children when the token is absent. -/
theorem C1_router_resolution (ls : Storage) (path : String) (children : Element) :
    (matchStatic "/" (locationPathname path) = true → App ls path = Element.welcome) ∧
    (matchStatic "/login" (locationPathname path) = true → App ls path = Element.login) ∧
    (matchStatic "/dashboard" (locationPathname path) = true →
      (App ls path = Element.dashboard ↔
        ∃ t, ls.getItem "accessToken" = some t ∧ t ≠ "") ∧
      ((¬ ∃ t, ls.getItem "accessToken" = some t ∧ t ≠ "") →
        App ls path = Element.navigate "/login" true)) ∧
    (matchStatic "/" (locationPathname path) = false →
      matchStatic "/login" (locationPathname path) = false →
      matchStatic "/dashboard" (locationPathname path) = false →
      App ls path = Element.navigate "/login" true) ∧
    App ls "/" = Element.welcome ∧
    App ls "/login" = Element.login ∧
    (App ls "/dashboard" = Element.dashboard ↔
      ∃ t, ls.getItem "accessToken" = some t ∧ t ≠ "") ∧
    (ls.getItem "accessToken" = none →
      ProtectedRoute ls children = Element.navigate "/login" true) := by
  obtain ⟨hex1, hex2⟩ := matchStatic_exclusive (locationPathname path)
  obtain ⟨hp1, hp2, hp3⟩ := protectedRoute_cases ls Element.dashboard
  have hdash : ∀ q : String, App ls q = ProtectedRoute ls Element.dashboard →
      ((App ls q = Element.dashboard ↔ ∃ t, ls.getItem "accessToken" = some t ∧ t ≠ "") ∧
        ((¬ ∃ t, ls.getItem "accessToken" = some t ∧ t ≠ "") →
          App ls q = Element.navigate "/login" true)) := by
    intro q hq
    rw [hq]
    refine ⟨⟨?_, fun h => hp1 h⟩, fun h => hp2 (hp3.mpr h)⟩
    intro h
    by_contra hno
    rw [hp2 (hp3.mpr hno)] at h
    cases h
  have hroot : App ls "/" = Element.welcome := by
    have h0 : matchStatic "/" (locationPathname "/") = true := by decide
    simp [App, h0]
  have hlogin : App ls "/login" = Element.login := by
    have h0 : matchStatic "/" (locationPathname "/login") = false := by decide
    have h1 : matchStatic "/login" (locationPathname "/login") = true := by decide
    simp [App, h0, h1]
  refine ⟨?_, ?_, ?_, ?_, hroot, hlogin, (hdash _ (app_at_dashboard ls)).1, ?_⟩
  · intro h
    simp [App, h]
  · intro h
    have h0 : matchStatic "/" (locationPathname path) = false := by
      cases h0 : matchStatic "/" (locationPathname path) with
      | false => rfl
      | true => rw [(hex1 h0).1] at h; cases h
    simp [App, h0, h]
  · intro h
    have h0 : matchStatic "/" (locationPathname path) = false := by
      cases h0 : matchStatic "/" (locationPathname path) with
      | false => rfl
      | true => rw [(hex1 h0).2] at h; cases h
    have h1 : matchStatic "/login" (locationPathname path) = false := by
      cases h1 : matchStatic "/login" (locationPathname path) with
      | false => rfl
      | true => rw [hex2 h1] at h; cases h
    exact hdash path (by simp [App, h0, h1, h])
  · intro h0 h1 h2
    simp [App, h0, h1, h2]
  · intro h
    exact (protectedRoute_cases ls children).2.1 (by simp [tokenMissing, h])

/-- C1 amended, at concrete inputs: /Dashboard/ with a stored token renders the
Dashboard, with the empty token it redirects, and the unknown path /orders
redirects. -/
theorem C1_router_resolution_witness :
    App [("accessToken", "tok")] "/Dashboard/" = Element.dashboard ∧
    App [("accessToken", "")] "/Dashboard/" = Element.navigate "/login" true ∧
    App [("accessToken", "tok")] "/orders" = Element.navigate "/login" true :=
  ⟨((C1_router_resolution [("accessToken", "tok")] "/Dashboard/" Element.dashboard).2.2.1
      (by decide)).1.2 ⟨"tok", by decide, by decide⟩,
    ((C1_router_resolution [("accessToken", "")] "/Dashboard/" Element.dashboard).2.2.1
      (by decide)).2 (by decide),
    (C1_router_resolution [("accessToken", "tok")] "/orders" Element.dashboard).2.2.2.1
      (by decide) (by decide) (by decide)⟩

/-- C2. When the login call succeeds with token t, handleLoginSubmit performs, in
this order: the login request, the write of t under the storage key accessToken,
setAuthToken(t), the who-am-I request, and then navigate to /dashboard, the last
one exactly when me() resolved; afterwards storage and client hold t.  When the
login call fails, storage is unchanged and nothing but the login request was
done: no storage write and no navigation. -/
theorem C2_login_effect_order (api : Api) (c : LoginState) (w : World) :
    (∀ t, api.login c.username c.password = Except.ok t →
      (Login.handleLoginSubmit api c w).2.trace =
        w.trace ++
          [Effect.preventDefault, Effect.login c.username c.password,
            Effect.storageSetItem "accessToken" t, Effect.setAuthToken t, Effect.me] ++
          (match api.me with
            | Except.ok _ => [Effect.navigate "/dashboard"]
            | Except.error _ => []) ∧
      (Login.handleLoginSubmit api c w).2.localStorage.getItem "accessToken" = some t ∧
      (Login.handleLoginSubmit api c w).2.authToken = some t ∧
      (Effect.navigate "/dashboard" ∈ effectsOf w (Login.handleLoginSubmit api c w).2 ↔
        ∃ u, api.me = Except.ok u)) ∧
    (∀ e, api.login c.username c.password = Except.error e →
      (Login.handleLoginSubmit api c w).2.trace =
        w.trace ++ [Effect.preventDefault, Effect.login c.username c.password] ∧
      (Login.handleLoginSubmit api c w).2.localStorage = w.localStorage ∧
      (Login.handleLoginSubmit api c w).2.authToken = w.authToken ∧
      (Login.handleLoginSubmit api c w).2.location = w.location ∧
      (∀ x ∈ effectsOf w (Login.handleLoginSubmit api c w).2,
        x.storesToken = false ∧ x.isNavigate = false)) := by
  constructor
  · intro t ht
    cases hme : api.me with
    | ok u =>
      have htr : (Login.handleLoginSubmit api c w).2.trace =
          w.trace ++ [Effect.preventDefault, Effect.login c.username c.password,
            Effect.storageSetItem "accessToken" t, Effect.setAuthToken t, Effect.me,
            Effect.navigate "/dashboard"] := by
        simp [Login.handleLoginSubmit, ht, hme, World.emit, World.storageSetItem,
          World.setAuthToken, World.navigate]
      refine ⟨by simp [htr], ?_, ?_, ?_⟩
      · simp [Login.handleLoginSubmit, ht, hme, World.emit, World.storageSetItem,
          World.setAuthToken, World.navigate, Storage.getItem_setItem]
      · simp [Login.handleLoginSubmit, ht, hme, World.emit, World.storageSetItem,
          World.setAuthToken, World.navigate]
      · rw [effectsOf_append w _ _ htr]
        simp
    | error e =>
      have htr : (Login.handleLoginSubmit api c w).2.trace =
          w.trace ++ [Effect.preventDefault, Effect.login c.username c.password,
            Effect.storageSetItem "accessToken" t, Effect.setAuthToken t, Effect.me] := by
        simp [Login.handleLoginSubmit, ht, hme, World.emit, World.storageSetItem,
          World.setAuthToken]
      refine ⟨by simp [htr], ?_, ?_, ?_⟩
      · simp [Login.handleLoginSubmit, ht, hme, World.emit, World.storageSetItem,
          World.setAuthToken, Storage.getItem_setItem]
      · simp [Login.handleLoginSubmit, ht, hme, World.emit, World.storageSetItem,
          World.setAuthToken]
      · rw [effectsOf_append w _ _ htr]
        simp
  · intro e he
    have htr : (Login.handleLoginSubmit api c w).2.trace =
        w.trace ++ [Effect.preventDefault, Effect.login c.username c.password] := by
      simp [Login.handleLoginSubmit, he, World.emit]
    refine ⟨htr, ?_, ?_, ?_, ?_⟩
    · simp [Login.handleLoginSubmit, he, World.emit]
    · simp [Login.handleLoginSubmit, he, World.emit]
    · simp [Login.handleLoginSubmit, he, World.emit]
    · rw [effectsOf_append w _ _ htr]
      simp [Effect.storesToken, Effect.isNavigate]

/-- C2, at concrete inputs: on a backend that accepts the login, the run from an
empty browser is login, store, setAuthToken, who-am-I, navigate; on one that
rejects it, the run ends after the login request. -/
theorem C2_login_effect_order_witness :
    (Login.handleLoginSubmit Sample.apiOk Sample.loginForm Sample.world).2.trace =
      [Effect.preventDefault, Effect.login "ana" "password1",
        Effect.storageSetItem "accessToken" "tok", Effect.setAuthToken "tok", Effect.me,
        Effect.navigate "/dashboard"] ∧
    (Login.handleLoginSubmit Sample.apiLoginFails Sample.loginForm Sample.world).2.trace =
      [Effect.preventDefault, Effect.login "ana" "password1"] :=
  ⟨((C2_login_effect_order Sample.apiOk Sample.loginForm Sample.world).1 "tok" rfl).1,
    ((C2_login_effect_order Sample.apiLoginFails Sample.loginForm Sample.world).2 _ rfl).1⟩

/-- C3. Dashboard entry.  With no token stored (null or the empty string) the
mount effect navigates to /login and calls nothing else, so me() is not called.
With a token stored and me() failing, clearAuthToken is called, the session store
is empty afterwards, the location is /login and the user record is unchanged, so
that from the initial state the loading element is rendered and no content.  The
user record changes only when me() succeeds, to the record it returned. -/
theorem C3_dashboard_entry (api : Api) (d : DashboardState) (w : World) :
    (tokenMissing (w.localStorage.getItem "accessToken") = true →
      Dashboard.mountEffect api d w = (d, w.navigate "/login") ∧
      effectsOf w (Dashboard.mountEffect api d w).2 = [Effect.navigate "/login"]) ∧
    (∀ t e, w.localStorage.getItem "accessToken" = some t → t ≠ "" →
      api.me = Except.error e →
      effectsOf w (Dashboard.mountEffect api d w).2 =
        [Effect.setAuthToken t, Effect.me, Effect.consoleLog, Effect.clearAuthToken,
          Effect.navigate "/login"] ∧
      (Dashboard.mountEffect api d w).2.sessionEmpty ∧
      (Dashboard.mountEffect api d w).2.location = "/login" ∧
      (Dashboard.mountEffect api d w).1 = d ∧
      (d.user = none →
        Dashboard.render (Dashboard.mountEffect api d w).1 = DashboardView.loading d.status)) ∧
    ((Dashboard.mountEffect api d w).1.user ≠ d.user →
      ∃ u, api.me = Except.ok u ∧ (Dashboard.mountEffect api d w).1.user = some u ∧
        Effect.me ∈ effectsOf w (Dashboard.mountEffect api d w).2) := by
  refine ⟨?_, ?_, ?_⟩
  · intro h
    cases hg : w.localStorage.getItem "accessToken" with
    | none =>
      have h1 : Dashboard.mountEffect api d w = (d, w.navigate "/login") := by
        simp [Dashboard.mountEffect, hg]
      refine ⟨h1, ?_⟩
      rw [h1]
      exact effectsOf_append w _ _ (by simp [World.navigate, World.emit])
    | some t =>
      have ht : t = "" := by simpa [tokenMissing, hg] using h
      have h1 : Dashboard.mountEffect api d w = (d, w.navigate "/login") := by
        simp [Dashboard.mountEffect, hg, ht]
      refine ⟨h1, ?_⟩
      rw [h1]
      exact effectsOf_append w _ _ (by simp [World.navigate, World.emit])
  · intro t e hg ht hme
    have h1 : Dashboard.mountEffect api d w =
        (d, ((((w.setAuthToken t).emit Effect.me).emit Effect.consoleLog).clearAuthToken).navigate
          "/login") := by
      simp [Dashboard.mountEffect, hg, ht, hme]
    rw [h1]
    refine ⟨?_, ?_, ?_, rfl, ?_⟩
    · exact effectsOf_append w _ _
        (by simp [World.navigate, World.emit, World.clearAuthToken, World.setAuthToken])
    · constructor
      · simp [World.navigate, World.emit, World.clearAuthToken, World.setAuthToken,
          Storage.getItem_removeItem]
      · simp [World.navigate, World.emit, World.clearAuthToken, World.setAuthToken]
    · simp [World.navigate, World.emit, World.clearAuthToken, World.setAuthToken]
    · intro hu
      simp [Dashboard.render, hu]
  · intro hne
    cases hg : w.localStorage.getItem "accessToken" with
    | none => simp [Dashboard.mountEffect, hg] at hne
    | some t =>
      by_cases ht : t = ""
      · simp [Dashboard.mountEffect, hg, ht] at hne
      · cases hme : api.me with
        | error e => simp [Dashboard.mountEffect, hg, ht, hme] at hne
        | ok u =>
          refine ⟨u, rfl, by simp [Dashboard.mountEffect, hg, ht, hme], ?_⟩
          have htr : (Dashboard.mountEffect api d w).2.trace =
              w.trace ++ [Effect.setAuthToken t, Effect.me] := by
            simp [Dashboard.mountEffect, hg, ht, hme, World.emit, World.setAuthToken]
          rw [effectsOf_append w _ _ htr]
          simp

/-- C3, at a concrete input: a stored token that the backend rejects leaves an
empty session store and the location /login. -/
theorem C3_dashboard_entry_witness :
    (Dashboard.mountEffect Sample.apiMeFails Dashboard.init Sample.worldWithToken).2.sessionEmpty ∧
    (Dashboard.mountEffect Sample.apiMeFails Dashboard.init Sample.worldWithToken).2.location =
      "/login" :=
  have h := (C3_dashboard_entry Sample.apiMeFails Dashboard.init Sample.worldWithToken).2.1
    "tok" _ rfl (by decide) rfl
  ⟨h.2.1, h.2.2.1⟩

/-- The trace of the shared end of the registration handlers extends the trace
it started from, beginning with the login request. -/
theorem loginAfterRegister_trace (api : Api) (u p : String) (c : LoginState) (w : World) :
    ∃ rest, (Login.loginAfterRegister api u p c w).2.trace =
      w.trace ++ Effect.login u p :: rest := by
  unfold Login.loginAfterRegister
  cases api.login u p with
  | error e => exact ⟨[], by simp [World.emit]⟩
  | ok t =>
    cases api.me with
    | error e =>
      exact ⟨_, by simp [World.emit, World.storageSetItem, World.setAuthToken]; rfl⟩
    | ok m =>
      exact ⟨_, by
        simp [World.emit, World.storageSetItem, World.setAuthToken, World.navigate]; rfl⟩

/-- A form that passes the checks of handleRegisterSubmit sends a registration
request right after preventDefault. -/
theorem handleRegisterSubmit_of_valid (api : Api) (c : LoginState) (w : World)
    (hv : customerFormValid c) :
    ∃ rest, (Login.handleRegisterSubmit api c w).2.trace =
      w.trace ++ Effect.preventDefault ::
        (if c.mode = "register-farmer" then Effect.registerFarmer (Login.registerPayload c)
          else Effect.registerCustomer (Login.registerPayload c)) :: rest := by
  obtain ⟨h1, h2, h3, h4, h5, h6⟩ := hv
  have h5' : ¬ jsLength c.password < 8 := by omega
  simp only [Login.handleRegisterSubmit]
  rw [if_neg h1, if_neg h2, if_neg h3, if_neg h4, if_neg h5', if_neg (not_not.mpr h6)]
  by_cases hm : c.mode = "register-farmer"
  · rw [if_pos hm, if_pos hm]
    cases api.registerFarmer (Login.registerPayload c) with
    | error e => exact ⟨[], by simp [World.emit]⟩
    | ok _ =>
      obtain ⟨rest, hr⟩ := loginAfterRegister_trace api c.username c.password
        (Login.setStatus "Account created! Logging you in..."
          (Login.setStatus "Creating account..." (Login.resetMessages c)))
        ((w.emit Effect.preventDefault).emit (Effect.registerFarmer (Login.registerPayload c)))
      exact ⟨_, by simp only [hr]; simp [World.emit]; rfl⟩
  · rw [if_neg hm, if_neg hm]
    cases api.registerCustomer (Login.registerPayload c) with
    | error e => exact ⟨[], by simp [World.emit]⟩
    | ok _ =>
      obtain ⟨rest, hr⟩ := loginAfterRegister_trace api c.username c.password
        (Login.setStatus "Account created! Logging you in..."
          (Login.setStatus "Creating account..." (Login.resetMessages c)))
        ((w.emit Effect.preventDefault).emit (Effect.registerCustomer (Login.registerPayload c)))
      exact ⟨_, by simp only [hr]; simp [World.emit]; rfl⟩

/-- A form that fails a check of handleRegisterSubmit gets a non-empty error
message and only preventDefault is performed. -/
theorem handleRegisterSubmit_of_invalid (api : Api) (c : LoginState) (w : World)
    (hv : ¬ customerFormValid c) :
    (∃ msg, (Login.handleRegisterSubmit api c w).1.error = JsVal.str msg ∧ msg ≠ "") ∧
    (Login.handleRegisterSubmit api c w).2 = w.emit Effect.preventDefault := by
  simp only [Login.handleRegisterSubmit]
  by_cases h1 : jsTrim c.username = ""
  · rw [if_pos h1]
    exact ⟨⟨_, rfl, by decide⟩, rfl⟩
  rw [if_neg h1]
  by_cases h2 : jsTrim c.email = ""
  · rw [if_pos h2]
    exact ⟨⟨_, rfl, by decide⟩, rfl⟩
  rw [if_neg h2]
  by_cases h3 : jsTrim c.firstName = ""
  · rw [if_pos h3]
    exact ⟨⟨_, rfl, by decide⟩, rfl⟩
  rw [if_neg h3]
  by_cases h4 : jsTrim c.lastName = ""
  · rw [if_pos h4]
    exact ⟨⟨_, rfl, by decide⟩, rfl⟩
  rw [if_neg h4]
  by_cases h5 : jsLength c.password < 8
  · rw [if_pos h5]
    exact ⟨⟨_, rfl, by decide⟩, rfl⟩
  rw [if_neg h5]
  by_cases h6 : c.password ≠ c.confirmPassword
  · rw [if_pos h6]
    exact ⟨⟨_, rfl, by decide⟩, rfl⟩
  · exact absurd ⟨h1, h2, h3, h4, by omega, not_not.mp h6⟩ hv

/-- C4. handleRegisterSubmit sends a request if and only if username, email,
first name and last name are non-empty after trimming, the password has length at
least 8 and equals confirmPassword.  Otherwise it sets a non-empty error message,
sends no request (preventDefault is its only action) and stores no token.  The
password "short" and a confirmation that differs both end in that second case. -/
theorem C4_customer_registration_validation (api : Api) (c : LoginState) (w : World) :
    ((∃ x ∈ effectsOf w (Login.handleRegisterSubmit api c w).2, x.isNetworkCall = true) ↔
      customerFormValid c) ∧
    (¬ customerFormValid c →
      (∃ msg, (Login.handleRegisterSubmit api c w).1.error = JsVal.str msg ∧ msg ≠ "") ∧
      effectsOf w (Login.handleRegisterSubmit api c w).2 = [Effect.preventDefault] ∧
      (Login.handleRegisterSubmit api c w).2.localStorage = w.localStorage ∧
      (Login.handleRegisterSubmit api c w).2.authToken = w.authToken) ∧
    (c.password = "short" ∨ c.password ≠ c.confirmPassword →
      ¬ customerFormValid c ∧
      ∀ x ∈ effectsOf w (Login.handleRegisterSubmit api c w).2, x.isNetworkCall = false) := by
  have hinv : ¬ customerFormValid c →
      (∃ msg, (Login.handleRegisterSubmit api c w).1.error = JsVal.str msg ∧ msg ≠ "") ∧
      effectsOf w (Login.handleRegisterSubmit api c w).2 = [Effect.preventDefault] ∧
      (Login.handleRegisterSubmit api c w).2.localStorage = w.localStorage ∧
      (Login.handleRegisterSubmit api c w).2.authToken = w.authToken := by
    intro hv
    obtain ⟨hmsg, hw⟩ := handleRegisterSubmit_of_invalid api c w hv
    refine ⟨hmsg, ?_, ?_, ?_⟩
    · exact effectsOf_append w _ _ (by rw [hw]; rfl)
    · rw [hw]; rfl
    · rw [hw]; rfl
  refine ⟨⟨?_, ?_⟩, hinv, ?_⟩
  · rintro ⟨x, hx, hnet⟩
    by_contra hv
    rw [(hinv hv).2.1] at hx
    simp at hx
    subst hx
    simp [Effect.isNetworkCall] at hnet
  · intro hv
    obtain ⟨rest, hr⟩ := handleRegisterSubmit_of_valid api c w hv
    rw [effectsOf_append w _ _ hr]
    by_cases hm : c.mode = "register-farmer"
    · exact ⟨Effect.registerFarmer (Login.registerPayload c), by simp [hm], rfl⟩
    · exact ⟨Effect.registerCustomer (Login.registerPayload c), by simp [hm], rfl⟩
  · intro h
    have hv : ¬ customerFormValid c := by
      rintro ⟨-, -, -, -, h5, h6⟩
      rcases h with h | h
      · rw [h] at h5
        revert h5
        decide
      · exact h h6
    refine ⟨hv, ?_⟩
    intro x hx
    rw [(hinv hv).2.1] at hx
    simp at hx
    subst hx
    rfl

/-- C4, at concrete inputs: the filled customer form sends the registration
request, the same form with the password "short" does not. -/
theorem C4_customer_registration_validation_witness :
    (∃ x ∈ effectsOf Sample.world
        (Login.handleRegisterSubmit Sample.apiOk Sample.customerForm Sample.world).2,
      x.isNetworkCall = true) ∧
    effectsOf Sample.world
        (Login.handleRegisterSubmit Sample.apiOk
          { Sample.customerForm with password := "short", confirmPassword := "short" }
          Sample.world).2 = [Effect.preventDefault] :=
  ⟨(C4_customer_registration_validation Sample.apiOk Sample.customerForm Sample.world).1.2
      (by decide),
    ((C4_customer_registration_validation Sample.apiOk
      { Sample.customerForm with password := "short", confirmPassword := "short" }
      Sample.world).2.1 (by decide)).2.1⟩

/-- A form that passes the checks of handleFarmerRegisterSubmit sends, right
after preventDefault, a farmer registration whose payload has the trimmed farm
name, which is not empty. -/
theorem handleFarmerRegisterSubmit_of_valid (api : Api) (c : LoginState) (w : World)
    (hv : farmerFormValid c) :
    (∃ rest, (Login.handleFarmerRegisterSubmit api c w).2.trace =
      w.trace ++ Effect.preventDefault :: Effect.registerFarmer (Login.farmerPayload c) :: rest) ∧
    ∃ f, (Login.farmerPayload c).farm_name = some f ∧ f ≠ "" := by
  obtain ⟨h1, h2, h3, h4, hf, h5, h6⟩ := hv
  have h5' : ¬ jsLength c.password < 8 := by omega
  refine ⟨?_, jsTrim c.farmName, rfl, hf⟩
  simp only [Login.handleFarmerRegisterSubmit]
  rw [if_neg h1, if_neg h2, if_neg h3, if_neg h4, if_neg hf, if_neg h5',
    if_neg (not_not.mpr h6)]
  cases api.registerFarmer (Login.farmerPayload c) with
  | error e => exact ⟨[], by simp [World.emit]⟩
  | ok _ =>
    obtain ⟨rest, hr⟩ := loginAfterRegister_trace api c.username c.password
      (Login.setStatus "Farm account created! Logging you in..."
        (Login.setStatus "Creating farmer account..." (Login.resetMessages c)))
      ((w.emit Effect.preventDefault).emit (Effect.registerFarmer (Login.farmerPayload c)))
    exact ⟨_, by simp only [hr]; simp [World.emit]; rfl⟩

/-- A form that fails a check of handleFarmerRegisterSubmit, an empty farm name
among them, gets a non-empty error message and only preventDefault is performed. -/
theorem handleFarmerRegisterSubmit_of_invalid (api : Api) (c : LoginState) (w : World)
    (hv : ¬ farmerFormValid c) :
    (∃ msg, (Login.handleFarmerRegisterSubmit api c w).1.error = JsVal.str msg ∧ msg ≠ "") ∧
    (Login.handleFarmerRegisterSubmit api c w).2 = w.emit Effect.preventDefault := by
  simp only [Login.handleFarmerRegisterSubmit]
  by_cases h1 : jsTrim c.username = ""
  · rw [if_pos h1]
    exact ⟨⟨_, rfl, by decide⟩, rfl⟩
  rw [if_neg h1]
  by_cases h2 : jsTrim c.email = ""
  · rw [if_pos h2]
    exact ⟨⟨_, rfl, by decide⟩, rfl⟩
  rw [if_neg h2]
  by_cases h3 : jsTrim c.firstName = ""
  · rw [if_pos h3]
    exact ⟨⟨_, rfl, by decide⟩, rfl⟩
  rw [if_neg h3]
  by_cases h4 : jsTrim c.lastName = ""
  · rw [if_pos h4]
    exact ⟨⟨_, rfl, by decide⟩, rfl⟩
  rw [if_neg h4]
  by_cases hf : jsTrim c.farmName = ""
  · rw [if_pos hf]
    exact ⟨⟨_, rfl, by decide⟩, rfl⟩
  rw [if_neg hf]
  by_cases h5 : jsLength c.password < 8
  · rw [if_pos h5]
    exact ⟨⟨_, rfl, by decide⟩, rfl⟩
  rw [if_neg h5]
  by_cases h6 : c.password ≠ c.confirmPassword
  · rw [if_pos h6]
    exact ⟨⟨_, rfl, by decide⟩, rfl⟩
  · exact absurd ⟨h1, h2, h3, h4, hf, by omega, not_not.mp h6⟩ hv

/-- The farmer handler rejects an empty farm name: an error is set and no request
is sent.  This is the check that handleRegisterSubmit lacks. -/
theorem handleFarmerRegisterSubmit_rejects_empty_farmName (api : Api) (c : LoginState)
    (w : World) (hf : jsTrim c.farmName = "") :
    (∃ msg, (Login.handleFarmerRegisterSubmit api c w).1.error = JsVal.str msg ∧ msg ≠ "") ∧
    effectsOf w (Login.handleFarmerRegisterSubmit api c w).2 = [Effect.preventDefault] := by
  have hv : ¬ farmerFormValid c := fun h => h.2.2.2.2.1 hf
  obtain ⟨hmsg, hw⟩ := handleFarmerRegisterSubmit_of_invalid api c w hv
  exact ⟨hmsg, effectsOf_append w _ _ (by rw [hw]; rfl)⟩

/-- The register-farmer branch of handleRegisterSubmit, were the function applied
in that mode: it sets no error and sends a farmer registration whose payload has
no farm_name, while handleFarmerRegisterSubmit on the same form sends nothing.
No rendered form applies handleRegisterSubmit in that mode (see Login.submit), so
the branch is never taken. -/
theorem handleRegisterSubmit_farmer_branch_applied_directly :
    jsTrim Sample.farmerFormNoFarm.farmName = "" ∧
    effectsOf Sample.world
        (Login.handleRegisterSubmit Sample.apiOk Sample.farmerFormNoFarm Sample.world).2 =
      [Effect.preventDefault,
        Effect.registerFarmer
          { username := "ana", email := "ana@example.com", password := "password1",
            first_name := "Ana", last_name := "Cruz", farm_name := none },
        Effect.login "ana" "password1", Effect.storageSetItem "accessToken" "tok",
        Effect.setAuthToken "tok", Effect.me, Effect.navigate "/dashboard"] ∧
    (Login.handleRegisterSubmit Sample.apiOk Sample.farmerFormNoFarm Sample.world).1.error =
      JsVal.str "" ∧
    effectsOf Sample.world
        (Login.handleFarmerRegisterSubmit Sample.apiOk Sample.farmerFormNoFarm Sample.world).2 =
      [Effect.preventDefault] := by
  refine ⟨by decide, by decide, rfl, by decide⟩

/-- The actions of a run that first took the World from w to w1 by the actions l
and then went on from w1. -/
theorem effectsOf_trans (w w1 w2 : World) (l : List Effect)
    (h1 : w1.trace = w.trace ++ l) (h2 : ∃ r, w2.trace = w1.trace ++ r) :
    effectsOf w w2 = l ++ effectsOf w1 w2 := by
  obtain ⟨r, hr⟩ := h2
  rw [effectsOf_append w1 w2 r hr]
  exact effectsOf_append w w2 (l ++ r) (by rw [hr, h1, List.append_assoc])

/-- The shared end of the registration handlers sends no registration request. -/
theorem loginAfterRegister_no_register (api : Api) (u p : String) (c : LoginState)
    (w : World) :
    ∀ x ∈ effectsOf w (Login.loginAfterRegister api u p c w).2,
      ∀ q, x ≠ Effect.registerFarmer q ∧ x ≠ Effect.registerCustomer q := by
  unfold Login.loginAfterRegister
  cases api.login u p with
  | error e =>
    rw [effectsOf_append w _ [Effect.login u p] (by simp [World.emit])]
    simp
  | ok t =>
    cases api.me with
    | error e =>
      rw [effectsOf_append w _
        [Effect.login u p, Effect.storageSetItem "accessToken" t, Effect.setAuthToken t,
          Effect.me]
        (by simp [World.emit, World.storageSetItem, World.setAuthToken])]
      simp
    | ok m =>
      rw [effectsOf_append w _
        [Effect.login u p, Effect.storageSetItem "accessToken" t, Effect.setAuthToken t,
          Effect.me, Effect.navigate "/dashboard"]
        (by simp [World.emit, World.storageSetItem, World.setAuthToken, World.navigate])]
      simp

/-- The handler handleLoginSubmit sends no registration request. -/
theorem handleLoginSubmit_no_register (api : Api) (c : LoginState) (w : World) :
    ∀ x ∈ effectsOf w (Login.handleLoginSubmit api c w).2,
      ∀ q, x ≠ Effect.registerFarmer q ∧ x ≠ Effect.registerCustomer q := by
  unfold Login.handleLoginSubmit
  cases api.login c.username c.password with
  | error e =>
    rw [effectsOf_append w _ [Effect.preventDefault, Effect.login c.username c.password]
      (by simp [World.emit])]
    simp
  | ok t =>
    cases api.me with
    | error e =>
      rw [effectsOf_append w _
        [Effect.preventDefault, Effect.login c.username c.password,
          Effect.storageSetItem "accessToken" t, Effect.setAuthToken t, Effect.me]
        (by simp [World.emit, World.storageSetItem, World.setAuthToken])]
      simp
    | ok m =>
      rw [effectsOf_append w _
        [Effect.preventDefault, Effect.login c.username c.password,
          Effect.storageSetItem "accessToken" t, Effect.setAuthToken t, Effect.me,
          Effect.navigate "/dashboard"]
        (by simp [World.emit, World.storageSetItem, World.setAuthToken, World.navigate])]
      simp

/-- Every farmer registration that handleFarmerRegisterSubmit sends comes from a
form that passed its checks and carries the payload built from that form. -/
theorem handleFarmerRegisterSubmit_registerFarmer (api : Api) (c : LoginState) (w : World)
    (q : RegisterPayload)
    (hq : Effect.registerFarmer q ∈ effectsOf w (Login.handleFarmerRegisterSubmit api c w).2) :
    farmerFormValid c ∧ q = Login.farmerPayload c := by
  by_cases hv : farmerFormValid c
  · refine ⟨hv, ?_⟩
    obtain ⟨h1, h2, h3, h4, hf, h5, h6⟩ := hv
    have h5' : ¬ jsLength c.password < 8 := by omega
    simp only [Login.handleFarmerRegisterSubmit] at hq
    rw [if_neg h1, if_neg h2, if_neg h3, if_neg h4, if_neg hf, if_neg h5',
      if_neg (not_not.mpr h6)] at hq
    cases hreg : api.registerFarmer (Login.farmerPayload c) with
    | error e =>
      rw [hreg] at hq
      rw [effectsOf_append w _
        [Effect.preventDefault, Effect.registerFarmer (Login.farmerPayload c)]
        (by simp [World.emit])] at hq
      simpa using hq
    | ok _ =>
      rw [hreg] at hq
      simp only [] at hq
      rw [effectsOf_trans w
        ((w.emit Effect.preventDefault).emit (Effect.registerFarmer (Login.farmerPayload c)))
        _ [Effect.preventDefault, Effect.registerFarmer (Login.farmerPayload c)]
        (by simp [World.emit])
        (by
          obtain ⟨rest, hr⟩ := loginAfterRegister_trace api c.username c.password
            (Login.setStatus "Farm account created! Logging you in..."
              (Login.setStatus "Creating farmer account..." (Login.resetMessages c)))
            ((w.emit Effect.preventDefault).emit
              (Effect.registerFarmer (Login.farmerPayload c)))
          exact ⟨_, hr⟩)] at hq
      rcases List.mem_append.mp hq with h | h
      · simpa using h
      · exact absurd rfl (loginAfterRegister_no_register _ _ _ _ _ _ h q).1
  · rw [effectsOf_append w _ [Effect.preventDefault]
      (by rw [(handleFarmerRegisterSubmit_of_invalid api c w hv).2]; rfl)] at hq
    simp at hq

/-- Outside the mode register-farmer, handleRegisterSubmit sends no farmer
registration. -/
theorem handleRegisterSubmit_no_registerFarmer (api : Api) (c : LoginState) (w : World)
    (hm : c.mode ≠ "register-farmer") (q : RegisterPayload) :
    Effect.registerFarmer q ∉ effectsOf w (Login.handleRegisterSubmit api c w).2 := by
  intro hq
  by_cases hv : customerFormValid c
  · obtain ⟨h1, h2, h3, h4, h5, h6⟩ := hv
    have h5' : ¬ jsLength c.password < 8 := by omega
    simp only [Login.handleRegisterSubmit] at hq
    rw [if_neg h1, if_neg h2, if_neg h3, if_neg h4, if_neg h5', if_neg (not_not.mpr h6),
      if_neg hm] at hq
    cases hreg : api.registerCustomer (Login.registerPayload c) with
    | error e =>
      rw [hreg] at hq
      rw [effectsOf_append w _
        [Effect.preventDefault, Effect.registerCustomer (Login.registerPayload c)]
        (by simp [World.emit])] at hq
      simp at hq
    | ok _ =>
      rw [hreg] at hq
      simp only [] at hq
      rw [effectsOf_trans w
        ((w.emit Effect.preventDefault).emit
          (Effect.registerCustomer (Login.registerPayload c)))
        _ [Effect.preventDefault, Effect.registerCustomer (Login.registerPayload c)]
        (by simp [World.emit])
        (by
          obtain ⟨rest, hr⟩ := loginAfterRegister_trace api c.username c.password
            (Login.setStatus "Account created! Logging you in..."
              (Login.setStatus "Creating account..." (Login.resetMessages c)))
            ((w.emit Effect.preventDefault).emit
              (Effect.registerCustomer (Login.registerPayload c)))
          exact ⟨_, hr⟩)] at hq
      rcases List.mem_append.mp hq with h | h
      · simp at h
      · exact absurd rfl (loginAfterRegister_no_register _ _ _ _ _ _ h q).1
  · rw [effectsOf_append w _ [Effect.preventDefault]
      (by rw [(handleRegisterSubmit_of_invalid api c w hv).2]; rfl)] at hq
    simp at hq

/-- C5. A farmer registration is submitted through the form of the mode
register-farmer, whose handler is handleFarmerRegisterSubmit; handleRegisterSubmit
is bound to the form of the mode register-customer only, and there it sends no
farmer registration.  A farm name that is empty after trimming is rejected: the
handler sets a non-empty error and performs nothing but preventDefault, so no
request is sent.  Every registerFarmer request that a submission sends, in any
mode, carries a farm_name that is not empty. -/
theorem C5_farmer_registration_requires_farmName (api : Api) (c : LoginState) (w : World) :
    (c.mode = "register-farmer" →
      Login.submit api c w = Login.handleFarmerRegisterSubmit api c w) ∧
    (c.mode = "register-customer" →
      Login.submit api c w = Login.handleRegisterSubmit api c w ∧
      ∀ q, Effect.registerFarmer q ∉ effectsOf w (Login.handleRegisterSubmit api c w).2) ∧
    (jsTrim c.farmName = "" →
      (∃ msg, (Login.handleFarmerRegisterSubmit api c w).1.error = JsVal.str msg ∧ msg ≠ "") ∧
      effectsOf w (Login.handleFarmerRegisterSubmit api c w).2 = [Effect.preventDefault]) ∧
    (c.mode = "register-farmer" → jsTrim c.farmName = "" →
      (∃ msg, (Login.submit api c w).1.error = JsVal.str msg ∧ msg ≠ "") ∧
      effectsOf w (Login.submit api c w).2 = [Effect.preventDefault] ∧
      ∀ x ∈ effectsOf w (Login.submit api c w).2, x.isNetworkCall = false) ∧
    (∀ q, Effect.registerFarmer q ∈ effectsOf w (Login.submit api c w).2 →
      c.mode = "register-farmer" ∧ q = Login.farmerPayload c ∧
      ∃ f, q.farm_name = some f ∧ f ≠ "") := by
  have hfarmer : c.mode = "register-farmer" →
      Login.submit api c w = Login.handleFarmerRegisterSubmit api c w := by
    intro hm
    have h1 : c.mode ≠ "login" := by rw [hm]; decide
    have h2 : c.mode ≠ "register-customer" := by rw [hm]; decide
    simp [Login.submit, h1, h2, hm]
  have hcustomer : c.mode = "register-customer" →
      Login.submit api c w = Login.handleRegisterSubmit api c w := by
    intro hm
    have h1 : c.mode ≠ "login" := by rw [hm]; decide
    simp [Login.submit, h1, hm]
  refine ⟨hfarmer, ?_, ?_, ?_, ?_⟩
  · intro hm
    refine ⟨hcustomer hm, fun q => ?_⟩
    exact handleRegisterSubmit_no_registerFarmer api c w (by rw [hm]; decide) q
  · exact handleFarmerRegisterSubmit_rejects_empty_farmName api c w
  · intro hm hf
    rw [hfarmer hm]
    obtain ⟨hmsg, heff⟩ := handleFarmerRegisterSubmit_rejects_empty_farmName api c w hf
    refine ⟨hmsg, heff, ?_⟩
    rw [heff]
    simp [Effect.isNetworkCall]
  · intro q hq
    by_cases hl : c.mode = "login"
    · have hs : Login.submit api c w = Login.handleLoginSubmit api c w := by
        simp [Login.submit, hl]
      rw [hs] at hq
      exact absurd rfl (handleLoginSubmit_no_register api c w _ hq q).1
    by_cases hc : c.mode = "register-customer"
    · rw [hcustomer hc] at hq
      exact absurd hq (handleRegisterSubmit_no_registerFarmer api c w (by rw [hc]; decide) q)
    by_cases hm : c.mode = "register-farmer"
    · rw [hfarmer hm] at hq
      obtain ⟨hv, hpay⟩ := handleFarmerRegisterSubmit_registerFarmer api c w q hq
      exact ⟨hm, hpay, jsTrim c.farmName, by rw [hpay]; rfl, hv.2.2.2.2.1⟩
    · have hs : Login.submit api c w = (c, w) := by
        simp [Login.submit, hl, hc, hm]
      rw [hs] at hq
      simp [effectsOf] at hq

/-- C5, at concrete inputs: the farmer form with an empty farm name sends
nothing, and the filled farmer form sends the registration with its farm name. -/
theorem C5_farmer_registration_requires_farmName_witness :
    effectsOf Sample.world
        (Login.submit Sample.apiOk Sample.farmerFormNoFarm Sample.world).2 =
      [Effect.preventDefault] ∧
    (Effect.registerFarmer (Login.farmerPayload Sample.farmerForm) ∈
        effectsOf Sample.world (Login.submit Sample.apiOk Sample.farmerForm Sample.world).2 ∧
      (Login.farmerPayload Sample.farmerForm).farm_name = some "Hill Farm") :=
  ⟨((C5_farmer_registration_requires_farmName Sample.apiOk Sample.farmerFormNoFarm
      Sample.world).2.2.2.1 (by decide) (by decide)).2.1,
    by decide, by decide⟩

/-- The orders after a sequence of settlements are those of the last successful
one, or the orders before it when none succeeded. -/
theorem applyResults_orders (results : List FetchResult) (s : OrdersState) :
    (OrdersView.applyResults s results).orders =
      match lastSuccessful results with
      | none => s.orders
      | some d => d.getD [] := by
  induction results generalizing s with
  | nil => rfl
  | cons r rest ih =>
    have hstep : OrdersView.applyResults s (r :: rest) =
        OrdersView.applyResults (OrdersView.loadOrders r s) rest := rfl
    rw [hstep, ih]
    cases hl : lastSuccessful rest with
    | some d => simp [lastSuccessful, hl]
    | none =>
      cases r with
      | ok d => simp [lastSuccessful, hl, OrdersView.loadOrders]
      | error e => simp [lastSuccessful, hl, OrdersView.loadOrders]

/-- C6. After any sequence of settlements applied by loadOrders in the order in
which they resolve, the orders are the data of the most recently resolved
successful fetch (the empty list when that data is absent), and the initial empty
list when none has succeeded.  A successful result replaces the whole list
whatever the previous one was, clears the error message and leaves expandedOrder
unchanged; applying the same response twice gives the state of applying it once. -/
theorem C6_last_resolved_fetch_wins (results : List FetchResult) (s s2 : OrdersState)
    (data : Option (List Order)) :
    ((OrdersView.applyResults OrdersView.init results).orders =
      match lastSuccessful results with
      | none => []
      | some d => d.getD []) ∧
    ((OrdersView.applyResults s results).orders =
      match lastSuccessful results with
      | none => s.orders
      | some d => d.getD []) ∧
    (OrdersView.loadOrders (Except.ok data) s).orders = data.getD [] ∧
    (OrdersView.loadOrders (Except.ok data) s).orders =
      (OrdersView.loadOrders (Except.ok data) s2).orders ∧
    (OrdersView.loadOrders (Except.ok data) s).error = "" ∧
    (OrdersView.loadOrders (Except.ok data) s).expandedOrder = s.expandedOrder ∧
    OrdersView.loadOrders (Except.ok data) (OrdersView.loadOrders (Except.ok data) s) =
      OrdersView.loadOrders (Except.ok data) s :=
  ⟨applyResults_orders results OrdersView.init, applyResults_orders results s, rfl, rfl, rfl,
    rfl, rfl⟩

/-- C7. A failed poll sets the error message to the fixed text and leaves the
orders and expandedOrder as they were.  In the step model the failure changes
neither the registered intervals nor the phase, so a tick of a registered interval
after it starts one more fetch; and a successful fetch after it resets the
message to the empty string. -/
theorem C7_failed_poll (s : OrdersState) (sys : OrdersSys) (e : JsErr)
    (data : Option (List Order)) :
    (OrdersView.loadOrders (Except.error e) s).error = "Failed to load orders" ∧
    (OrdersView.loadOrders (Except.error e) s).orders = s.orders ∧
    (OrdersView.loadOrders (Except.error e) s).expandedOrder = s.expandedOrder ∧
    (OrdersSys.step sys (OrdersEvent.settle (Except.error e))).timers = sys.timers ∧
    (OrdersSys.step sys (OrdersEvent.settle (Except.error e))).phase = sys.phase ∧
    (∀ t ∈ sys.timers,
      (OrdersSys.step (OrdersSys.step sys (OrdersEvent.settle (Except.error e)))
          (OrdersEvent.tick t.id)).fetchesStarted =
        (OrdersSys.step sys (OrdersEvent.settle (Except.error e))).fetchesStarted + 1) ∧
    (OrdersView.loadOrders (Except.ok data)
      (OrdersView.loadOrders (Except.error e) s)).error = "" := by
  have htimers : (OrdersSys.step sys (OrdersEvent.settle (Except.error e))).timers =
      sys.timers := by
    simp only [OrdersSys.step]
    split <;> rfl
  have hphase : (OrdersSys.step sys (OrdersEvent.settle (Except.error e))).phase =
      sys.phase := by
    simp only [OrdersSys.step]
    split <;> rfl
  refine ⟨rfl, rfl, rfl, htimers, hphase, ?_, rfl⟩
  intro t ht
  generalize OrdersSys.step sys (OrdersEvent.settle (Except.error e)) = sys2 at htimers ⊢
  rw [← htimers] at ht
  cases hfind : sys2.timers.find? (fun x => x.id == t.id) with
  | none =>
    rw [List.find?_eq_none] at hfind
    exact absurd (by simp) (hfind t ht)
  | some t2 =>
    cases hcb : t2.callback
    simp [OrdersSys.step, hfind, hcb, OrdersSys.startFetch]

/-- C7, at a concrete input: after the mount, a failed settlement and a tick of
the interval, two fetches have been started. -/
theorem C7_failed_poll_witness :
    (OrdersSys.step (OrdersSys.step (OrdersSys.run (OrdersSys.init 0) [OrdersEvent.mount])
        (OrdersEvent.settle (Except.error ⟨none⟩))) (OrdersEvent.tick 0)).fetchesStarted = 2 :=
  (C7_failed_poll OrdersView.init (OrdersSys.run (OrdersSys.init 0) [OrdersEvent.mount])
    ⟨none⟩ none).2.2.2.2.2.1 { id := 0, delay := 5000, callback := Callback.loadOrders }
    (by decide)

theorem OrdersSys.inv_init (k : Nat) : OrdersSys.Inv (OrdersSys.init k) := by
  refine ⟨fun _ => ⟨rfl, rfl⟩, ?_, ?_, ?_, ?_⟩
  · intro h; cases h
  · intro _; rfl
  · simp [OrdersSys.init, OrdersView.init]
  · simp [OrdersSys.init]

theorem OrdersSys.inv_step (s : OrdersSys) (ev : OrdersEvent) (h : OrdersSys.Inv s) :
    OrdersSys.Inv (OrdersSys.step s ev) := by
  obtain ⟨hf, hm, hu, hl, hle⟩ := h
  cases ev with
  | mount =>
    by_cases hp : s.phase = Phase.fresh
    · obtain ⟨ht, _⟩ := hf hp
      simp only [OrdersSys.step, hp, if_true]
      refine ⟨?_, ?_, ?_, ?_, ?_⟩
      · intro h; simp [OrdersSys.runEffect] at h
      · intro _
        exact ⟨s.nextTimerId, rfl, by
          simp [OrdersSys.runEffect, OrdersSys.setInterval, OrdersSys.startFetch, ht]⟩
      · intro h; simp [OrdersSys.runEffect] at h
      · simpa [OrdersSys.runEffect, OrdersSys.setInterval, OrdersSys.startFetch] using hl
      · simp only [OrdersSys.runEffect, OrdersSys.setInterval, OrdersSys.startFetch]
        omega
    · simp only [OrdersSys.step, hp, if_false]
      exact ⟨hf, hm, hu, hl, hle⟩
  | tick id =>
    cases hfind : s.timers.find? (fun t => t.id == id) with
    | none =>
      simp only [OrdersSys.step, hfind]
      exact ⟨hf, hm, hu, hl, hle⟩
    | some t =>
      cases hcb : t.callback
      have hne : s.timers ≠ [] := by
        intro h0
        rw [h0] at hfind
        simp at hfind
      have hstep : OrdersSys.step s (OrdersEvent.tick id) = OrdersSys.startFetch s := by
        simp [OrdersSys.step, hfind, hcb]
      rw [hstep]
      refine ⟨?_, hm, hu, hl, ?_⟩
      · intro hp
        exact absurd (hf hp).1 hne
      · simp only [OrdersSys.startFetch]
        omega
  | unmount =>
    by_cases hp : s.phase = Phase.mounted
    · obtain ⟨id, hc, ht⟩ := hm hp
      have hstep : OrdersSys.step s OrdersEvent.unmount =
          { OrdersSys.clearInterval id s with phase := Phase.unmounted } := by
        simp [OrdersSys.step, hp, OrdersSys.runCleanup, hc]
      rw [hstep]
      refine ⟨?_, ?_, ?_, hl, hle⟩
      · intro h; cases h
      · intro h; cases h
      · intro _
        simp [OrdersSys.clearInterval, ht]
    · simp only [OrdersSys.step, hp, if_false]
      exact ⟨hf, hm, hu, hl, hle⟩
  | settle res =>
    by_cases hlt : s.fetchesSettled < s.fetchesStarted
    · simp only [OrdersSys.step, hlt, if_true]
      refine ⟨?_, hm, hu, ?_, ?_⟩
      · intro hp
        have := (hf hp).2
        omega
      · simp [OrdersView.loadOrders]
      · show s.fetchesSettled + 1 ≤ s.fetchesStarted
        omega
    · simp only [OrdersSys.step, hlt, if_false]
      exact ⟨hf, hm, hu, hl, hle⟩

theorem OrdersSys.inv_run (events : List OrdersEvent) (s : OrdersSys) (h : OrdersSys.Inv s) :
    OrdersSys.Inv (OrdersSys.run s events) := by
  induction events generalizing s with
  | nil => exact h
  | cons ev rest ih => exact ih _ (OrdersSys.inv_step s ev h)

theorem OrdersSys.inv_of_reachable (s : OrdersSys) (h : OrdersSys.Reachable s) :
    OrdersSys.Inv s := by
  obtain ⟨k, events, rfl⟩ := h
  exact OrdersSys.inv_run events _ (OrdersSys.inv_init k)

/-- Once the instance is unmounted and its interval is gone, no event starts a
fetch, registers an interval or changes the phase. -/
theorem OrdersSys.run_unmounted (events : List OrdersEvent) (s : OrdersSys)
    (hp : s.phase = Phase.unmounted) (ht : s.timers = []) :
    (OrdersSys.run s events).fetchesStarted = s.fetchesStarted ∧
    (OrdersSys.run s events).phase = Phase.unmounted ∧
    (OrdersSys.run s events).timers = [] := by
  induction events generalizing s with
  | nil => exact ⟨rfl, hp, ht⟩
  | cons ev rest ih =>
    have hstep : (OrdersSys.step s ev).fetchesStarted = s.fetchesStarted ∧
        (OrdersSys.step s ev).phase = Phase.unmounted ∧ (OrdersSys.step s ev).timers = [] := by
      cases ev with
      | mount => simp [OrdersSys.step, hp, ht]
      | tick id => simp [OrdersSys.step, hp, ht]
      | unmount => simp [OrdersSys.step, hp, ht]
      | settle res =>
        by_cases hlt : s.fetchesSettled < s.fetchesStarted
        · simp [OrdersSys.step, hlt, hp, ht]
        · simp [OrdersSys.step, hlt, hp, ht]
    obtain ⟨h1, h2, h3⟩ := hstep
    obtain ⟨i1, i2, i3⟩ := ih (OrdersSys.step s ev) h2 h3
    exact ⟨by rw [← h1]; exact i1, i2, i3⟩

/-- C8. In the step model of OrdersView, in every reachable state: from a fresh
instance no fetch has been started and the mount starts exactly one fetch and
registers one interval of 5000 ms calling loadOrders; while mounted that interval
is the only one, each of its ticks starts one fetch, and the unmount removes it
without starting a fetch; after the unmount no sequence of events starts a fetch. -/
theorem C8_polling_lifecycle (s : OrdersSys) (hs : OrdersSys.Reachable s)
    (events : List OrdersEvent) :
    (s.phase = Phase.fresh →
      s.fetchesStarted = 0 ∧ s.timers = [] ∧
      (OrdersSys.step s OrdersEvent.mount).fetchesStarted = 1 ∧
      (OrdersSys.step s OrdersEvent.mount).timers =
        [{ id := s.nextTimerId, delay := 5000, callback := Callback.loadOrders }] ∧
      (OrdersSys.step s OrdersEvent.mount).cleanup = some s.nextTimerId ∧
      (OrdersSys.step s OrdersEvent.mount).phase = Phase.mounted) ∧
    (s.phase = Phase.mounted →
      ∃ id, s.cleanup = some id ∧
        s.timers = [{ id := id, delay := 5000, callback := Callback.loadOrders }] ∧
        (OrdersSys.step s (OrdersEvent.tick id)).fetchesStarted = s.fetchesStarted + 1 ∧
        (OrdersSys.step s OrdersEvent.mount) = s ∧
        (OrdersSys.step s OrdersEvent.unmount).timers = [] ∧
        (OrdersSys.step s OrdersEvent.unmount).phase = Phase.unmounted ∧
        (OrdersSys.step s OrdersEvent.unmount).fetchesStarted = s.fetchesStarted) ∧
    (s.phase = Phase.unmounted →
      s.timers = [] ∧ (OrdersSys.run s events).fetchesStarted = s.fetchesStarted) := by
  obtain ⟨hf, hm, hu, -, -⟩ := OrdersSys.inv_of_reachable s hs
  refine ⟨?_, ?_, ?_⟩
  · intro hp
    obtain ⟨ht, h0⟩ := hf hp
    refine ⟨h0, ht, ?_, ?_, ?_, ?_⟩
    · simp [OrdersSys.step, hp, OrdersSys.runEffect, OrdersSys.setInterval,
        OrdersSys.startFetch, h0]
    · simp [OrdersSys.step, hp, OrdersSys.runEffect, OrdersSys.setInterval,
        OrdersSys.startFetch, ht]
    · simp [OrdersSys.step, hp, OrdersSys.runEffect, OrdersSys.setInterval,
        OrdersSys.startFetch]
    · simp [OrdersSys.step, hp, OrdersSys.runEffect]
  · intro hp
    obtain ⟨id, hc, ht⟩ := hm hp
    refine ⟨id, hc, ht, ?_, ?_, ?_, ?_, ?_⟩
    · simp [OrdersSys.step, ht, OrdersSys.startFetch]
    · simp [OrdersSys.step, hp]
    · simp [OrdersSys.step, hp, OrdersSys.runCleanup, hc, OrdersSys.clearInterval, ht]
    · simp [OrdersSys.step, hp, OrdersSys.runCleanup, hc]
    · simp [OrdersSys.step, hp, OrdersSys.runCleanup, hc, OrdersSys.clearInterval]
  · intro hp
    exact ⟨hu hp, (OrdersSys.run_unmounted events s hp (hu hp)).1⟩

/-- C8, at a concrete input: after mount, one tick and unmount two fetches have
been started, and a later tick, mount and tick start none. -/
theorem C8_polling_lifecycle_witness :
    (OrdersSys.run (OrdersSys.init 7)
        [OrdersEvent.mount, OrdersEvent.tick 7, OrdersEvent.unmount]).fetchesStarted = 2 ∧
    (OrdersSys.run
        (OrdersSys.run (OrdersSys.init 7)
          [OrdersEvent.mount, OrdersEvent.tick 7, OrdersEvent.unmount])
        [OrdersEvent.tick 7, OrdersEvent.mount, OrdersEvent.tick 7]).fetchesStarted =
      (OrdersSys.run (OrdersSys.init 7)
        [OrdersEvent.mount, OrdersEvent.tick 7, OrdersEvent.unmount]).fetchesStarted :=
  ⟨by decide,
    ((C8_polling_lifecycle
      (OrdersSys.run (OrdersSys.init 7)
        [OrdersEvent.mount, OrdersEvent.tick 7, OrdersEvent.unmount])
      ⟨7, [OrdersEvent.mount, OrdersEvent.tick 7, OrdersEvent.unmount], rfl⟩
      [OrdersEvent.tick 7, OrdersEvent.mount, OrdersEvent.tick 7]).2.2 (by decide)).2⟩

/-- A step never sets the loading flag again. -/
theorem OrdersSys.run_loading_false (events : List OrdersEvent) (s : OrdersSys)
    (h : s.view.loading = false) : (OrdersSys.run s events).view.loading = false := by
  induction events generalizing s with
  | nil => exact h
  | cons ev rest ih =>
    apply ih
    cases ev with
    | mount =>
      by_cases hp : s.phase = Phase.fresh
      · simpa [OrdersSys.step, hp, OrdersSys.runEffect, OrdersSys.setInterval,
          OrdersSys.startFetch] using h
      · simpa [OrdersSys.step, hp] using h
    | tick id =>
      cases hfind : s.timers.find? (fun t => t.id == id) with
      | none => simpa [OrdersSys.step, hfind] using h
      | some t =>
        cases hcb : t.callback
        simpa [OrdersSys.step, hfind, hcb, OrdersSys.startFetch] using h
    | unmount =>
      by_cases hp : s.phase = Phase.mounted
      · cases hc : s.cleanup with
        | none => simpa [OrdersSys.step, hp, OrdersSys.runCleanup, hc] using h
        | some id =>
          simpa [OrdersSys.step, hp, OrdersSys.runCleanup, hc, OrdersSys.clearInterval] using h
      · simpa [OrdersSys.step, hp] using h
    | settle res =>
      by_cases hlt : s.fetchesSettled < s.fetchesStarted
      · simp [OrdersSys.step, hlt, OrdersView.loadOrders]
      · simpa [OrdersSys.step, hlt] using h

/-- C9. The loading flag is true in the initial state and false after loadOrders
has applied a settlement, successful or failed.  In every reachable state of the
step model it is true exactly while no fetch has settled, the settlement of a
pending fetch makes it false, and once false it stays false under every sequence
of events.  The render is the loading element when the flag is true, and the page
with the empty-orders message or the list of all order cards when it is false. -/
theorem C9_loading_flag (s : OrdersSys) (hs : OrdersSys.Reachable s) (res : FetchResult)
    (st : OrdersState) (events : List OrdersEvent) :
    OrdersView.init.loading = true ∧
    (OrdersView.loadOrders res st).loading = false ∧
    (s.view.loading = true ↔ s.fetchesSettled = 0) ∧
    (s.fetchesSettled < s.fetchesStarted →
      (OrdersSys.step s (OrdersEvent.settle res)).view.loading = false) ∧
    (s.view.loading = false → (OrdersSys.run s events).view.loading = false) ∧
    (st.loading = true → OrdersView.render st = OrdersViewNode.loading) ∧
    (st.loading = false →
      OrdersView.render st =
        OrdersViewNode.page (if st.error = "" then none else some st.error)
          (if st.orders.length = 0 then OrdersBody.emptyOrders
            else OrdersBody.ordersList (st.orders.map (OrdersView.orderCard st.expandedOrder)))) ∧
    (OrdersView.render st ≠ OrdersViewNode.loading ↔ st.loading = false) := by
  obtain ⟨-, -, -, hl, -⟩ := OrdersSys.inv_of_reachable s hs
  refine ⟨rfl, rfl, hl, ?_, OrdersSys.run_loading_false events s, ?_, ?_, ?_⟩
  · intro hlt
    simp [OrdersSys.step, hlt, OrdersView.loadOrders]
  · intro h
    simp [OrdersView.render, h]
  · intro h
    simp [OrdersView.render, h]
  · cases h : st.loading <;> simp [OrdersView.render, h]

/-- C9, at a concrete input: after the mount and one failed settlement the flag
is false, and it is still false after a tick and a successful settlement. -/
theorem C9_loading_flag_witness :
    (OrdersSys.run (OrdersSys.init 0)
        [OrdersEvent.mount, OrdersEvent.settle (Except.error ⟨none⟩)]).view.loading = false ∧
    (OrdersSys.run
        (OrdersSys.run (OrdersSys.init 0)
          [OrdersEvent.mount, OrdersEvent.settle (Except.error ⟨none⟩)])
        [OrdersEvent.tick 0, OrdersEvent.settle (Except.ok (some []))]).view.loading = false :=
  ⟨by decide,
    (C9_loading_flag
      (OrdersSys.run (OrdersSys.init 0)
        [OrdersEvent.mount, OrdersEvent.settle (Except.error ⟨none⟩)])
      ⟨0, [OrdersEvent.mount, OrdersEvent.settle (Except.error ⟨none⟩)], rfl⟩
      (Except.ok none) OrdersView.init
      [OrdersEvent.tick 0, OrdersEvent.settle (Except.ok (some []))]).2.2.2.2.1 (by decide)⟩

/-- C6, at a concrete input: two successful polls around a failed one leave the
list of the later one. -/
theorem C6_last_resolved_fetch_wins_witness :
    (OrdersView.applyResults OrdersView.init
      [Except.ok (some [Sample.orderInProgress]), Except.error ⟨none⟩,
        Except.ok (some [Sample.orderApproved]), Except.error ⟨none⟩]).orders =
      [Sample.orderApproved] :=
  (C6_last_resolved_fetch_wins _ OrdersView.init OrdersView.init none).1

theorem length_pos_of_ne_empty (x : String) (hx : x ≠ "") : 0 < x.length := by
  obtain ⟨data⟩ := x
  cases data with
  | nil => exact absurd rfl hx
  | cons a l => simp [String.length]

theorem jsJoin_ne_empty (sep x : String) (rest : List String) (hx : x ≠ "") :
    jsJoin sep (x :: rest) ≠ "" := by
  have hlen : 0 < x.length := length_pos_of_ne_empty x hx
  cases rest with
  | nil => simpa [jsJoin] using hx
  | cons y ys =>
    intro h
    have := congrArg String.length h
    simp [jsJoin, String.length_append] at this
    omega

theorem firstMessageEntry_ne_empty (p : String × List String) : firstMessageEntry p ≠ "" := by
  intro h
  have := congrArg String.length h
  simp [firstMessageEntry, String.length_append] at this
  have h2 : (": " : String).length = 2 := by decide
  omega

theorem fieldErrorEntry_fieldErrorBody (p : String × List String) :
    Login.fieldErrorEntry (p.1, JsVal.arr (p.2.map JsVal.str)) = firstMessageEntry p := by
  obtain ⟨k, ms⟩ := p
  cases ms with
  | nil => simp [Login.fieldErrorEntry, firstMessageEntry, JsVal.isArray, JsVal.first, JsVal.toStr]
  | cons m rest =>
    simp [Login.fieldErrorEntry, firstMessageEntry, JsVal.isArray, JsVal.first, JsVal.toStr]

/-- The message of the registration catch block for a body of field errors with
at least one field: the entries of the fields, each with its first message. -/
theorem registrationError_fieldErrorBody (fields : List (String × List String))
    (hne : fields ≠ []) :
    Login.registrationError ⟨some (fieldErrorBody fields)⟩ =
      JsVal.str (jsJoin ", " (fields.map firstMessageEntry)) := by
  have hentries : (fieldErrorBody fields).entries.map Login.fieldErrorEntry =
      fields.map firstMessageEntry := by
    simp only [fieldErrorBody, JsVal.entries, List.map_map]
    apply List.map_congr_left
    intro p _
    exact fieldErrorEntry_fieldErrorBody p
  have hjoin : jsJoin ", " (fields.map firstMessageEntry) ≠ "" := by
    cases fields with
    | nil => exact absurd rfl hne
    | cons p rest => exact jsJoin_ne_empty _ _ _ (firstMessageEntry_ne_empty p)
  simp only [Login.registrationError, JsErr.data, hentries]
  simp [fieldErrorBody, JsVal.truthy, JsVal.isObjectType, hjoin]

theorem containsText_jsJoin (sep x : String) (l : List String) (hx : x ∈ l) :
    containsText (jsJoin sep l) x := by
  induction l with
  | nil => cases hx
  | cons y rest ih =>
    cases rest with
    | nil =>
      have : x = y := by simpa using hx
      subst this
      exact List.infix_refl _
    | cons z zs =>
      rcases List.mem_cons.mp hx with h | h
      · subst h
        show x.data <:+: (x ++ sep ++ jsJoin sep (z :: zs)).data
        rw [String.data_append, String.data_append, List.append_assoc]
        exact (List.prefix_append _ _).isInfix
      · have h2 := ih h
        show x.data <:+: (y ++ sep ++ jsJoin sep (z :: zs)).data
        rw [String.data_append]
        exact h2.trans (List.suffix_append _ _).isInfix

/-- C10, as stated, fails.  A customer registration rejected with the body
username: [taken, too short], email: [invalid] shows the text
"username: taken, email: invalid", in which the second message of the username
list does not occur. -/
theorem C10_later_messages_not_shown :
    (Login.handleRegisterSubmit Sample.apiRegisterRejected Sample.customerForm
        Sample.world).1.error = JsVal.str "username: taken, email: invalid" ∧
    ¬ containsText "username: taken, email: invalid" "too short" := by
  refine ⟨rfl, by decide⟩

/-- C10, amended.  When the registration request of a valid form is rejected with
a body that maps at least one field name to a list of messages, both registration
handlers clear the status and show the entries of the fields in the order of the
body, joined by a comma and a blank, each entry being the field name, a colon and
the first message of the list of the field; so the text shown contains, for every
field, its name with its first message. -/
theorem C10_registration_error_first_messages (api : Api) (c : LoginState) (w : World)
    (fields : List (String × List String)) (hne : fields ≠ []) :
    (customerFormValid c →
      (if c.mode = "register-farmer" then api.registerFarmer (Login.registerPayload c)
        else api.registerCustomer (Login.registerPayload c)) =
          Except.error ⟨some (fieldErrorBody fields)⟩ →
      (Login.handleRegisterSubmit api c w).1.error =
        JsVal.str (jsJoin ", " (fields.map firstMessageEntry)) ∧
      (Login.handleRegisterSubmit api c w).1.status = "") ∧
    (farmerFormValid c →
      api.registerFarmer (Login.farmerPayload c) = Except.error ⟨some (fieldErrorBody fields)⟩ →
      (Login.handleFarmerRegisterSubmit api c w).1.error =
        JsVal.str (jsJoin ", " (fields.map firstMessageEntry)) ∧
      (Login.handleFarmerRegisterSubmit api c w).1.status = "") ∧
    (∀ k m rest, (k, m :: rest) ∈ fields →
      containsText (jsJoin ", " (fields.map firstMessageEntry)) (k ++ ": " ++ m)) := by
  refine ⟨?_, ?_, ?_⟩
  · rintro ⟨h1, h2, h3, h4, h5, h6⟩ hreq
    have h5' : ¬ jsLength c.password < 8 := by omega
    simp only [Login.handleRegisterSubmit]
    rw [if_neg h1, if_neg h2, if_neg h3, if_neg h4, if_neg h5', if_neg (not_not.mpr h6)]
    by_cases hm : c.mode = "register-farmer"
    · rw [if_pos hm] at hreq
      rw [if_pos hm, hreq]
      exact ⟨registrationError_fieldErrorBody fields hne, rfl⟩
    · rw [if_neg hm] at hreq
      rw [if_neg hm, hreq]
      exact ⟨registrationError_fieldErrorBody fields hne, rfl⟩
  · rintro ⟨h1, h2, h3, h4, hf, h5, h6⟩ hreq
    have h5' : ¬ jsLength c.password < 8 := by omega
    simp only [Login.handleFarmerRegisterSubmit]
    rw [if_neg h1, if_neg h2, if_neg h3, if_neg h4, if_neg hf, if_neg h5',
      if_neg (not_not.mpr h6), hreq]
    exact ⟨registrationError_fieldErrorBody fields hne, rfl⟩
  · intro k m rest hmem
    have : firstMessageEntry (k, m :: rest) ∈ fields.map firstMessageEntry :=
      List.mem_map_of_mem _ hmem
    exact containsText_jsJoin ", " _ _ this

/-- C10 amended, at a concrete input: the rejected customer registration of the
counterexample shows the first message of each of its two fields. -/
theorem C10_registration_error_first_messages_witness :
    (Login.handleRegisterSubmit Sample.apiRegisterRejected Sample.customerForm
        Sample.world).1.error =
      JsVal.str (jsJoin ", "
        ([("username", ["taken", "too short"]), ("email", ["invalid"])].map
          firstMessageEntry)) ∧
    containsText
      (jsJoin ", "
        ([("username", ["taken", "too short"]), ("email", ["invalid"])].map firstMessageEntry))
      ("email" ++ ": " ++ "invalid") :=
  have h := C10_registration_error_first_messages Sample.apiRegisterRejected
    Sample.customerForm Sample.world
    [("username", ["taken", "too short"]), ("email", ["invalid"])] (by decide)
  ⟨(h.1 (by decide) rfl).1, h.2.2 "email" "invalid" [] (by decide)⟩

/-- The rejection note of an order is its reason exactly when the status is
REJECTED and the reason is a non-empty string. -/
theorem rejectionNote_eq_some (o : Order) (r : String) :
    OrdersView.rejectionNote o = some r ↔
      o.status = "REJECTED" ∧ o.rejection_reason = some r ∧ r ≠ "" := by
  unfold OrdersView.rejectionNote
  by_cases hs : o.status = "REJECTED"
  · rw [if_pos hs]
    cases hr : o.rejection_reason with
    | none => simp [hs]
    | some x =>
      by_cases hx : x = ""
      · subst hx
        simp only [if_true, hs, true_and, Option.some.injEq]
        constructor
        · intro h; cases h
        · rintro ⟨rfl, h⟩; exact absurd rfl h
      · simp only [hx, if_false, hs, true_and, Option.some.injEq]
        constructor
        · rintro rfl; exact ⟨rfl, hx⟩
        · rintro ⟨h, -⟩; exact h
  · rw [if_neg hs]
    simp [hs]

/-- C11, as stated, fails.  After a poll that delivers one order with status
REJECTED and rejection_reason "out of stock", the view of a component in which no
order is expanded shows no rejection reason. -/
theorem C11_reason_hidden_when_collapsed :
    Sample.orderRejected.status = "REJECTED" ∧
    Sample.orderRejected.rejection_reason = some "out of stock" ∧
    OrdersView.shownRejectionReasons
      (OrdersView.render
        (OrdersView.loadOrders (Except.ok (some [Sample.orderRejected])) OrdersView.init)) = [] := by
  decide

/-- C11, amended.  After a poll has applied an order list, in every view state,
the rejection reasons shown are exactly the non-empty reasons of the orders with
status REJECTED that are the expanded one: such an order has its reason rendered
when expandedOrder is its id, and no reason is rendered for any other order. -/
theorem C11_rejection_reason_when_expanded (s : OrdersState) (orders : List Order)
    (r : String) :
    r ∈ OrdersView.shownRejectionReasons
        (OrdersView.render (OrdersView.loadOrders (Except.ok (some orders)) s)) ↔
      ∃ o ∈ orders, s.expandedOrder = some o.id ∧ o.status = "REJECTED" ∧
        o.rejection_reason = some r ∧ r ≠ "" := by
  cases orders with
  | nil => simp [OrdersView.loadOrders, OrdersView.render, OrdersView.shownRejectionReasons]
  | cons o rest =>
    have hrender : OrdersView.render (OrdersView.loadOrders (Except.ok (some (o :: rest))) s) =
        OrdersViewNode.page none
          (OrdersBody.ordersList ((o :: rest).map (OrdersView.orderCard s.expandedOrder))) := by
      simp [OrdersView.loadOrders, OrdersView.render]
    rw [hrender]
    simp only [OrdersView.shownRejectionReasons, List.mem_filterMap, List.mem_map]
    constructor
    · rintro ⟨card, ⟨o2, ho2, rfl⟩, hcard⟩
      by_cases he : s.expandedOrder = some o2.id
      · simp only [OrdersView.orderCard, he, if_true, Option.bind, OrdersView.orderDetails]
          at hcard
        exact ⟨o2, ho2, he, (rejectionNote_eq_some o2 r).mp hcard⟩
      · simp [OrdersView.orderCard, he] at hcard
    · rintro ⟨o2, ho2, he, hs, hr, hne⟩
      refine ⟨_, ⟨o2, ho2, rfl⟩, ?_⟩
      simp only [OrdersView.orderCard, he, if_true, Option.bind, OrdersView.orderDetails]
      exact (rejectionNote_eq_some o2 r).mpr ⟨hs, hr, hne⟩

/-- C11 amended, at a concrete input: the rejected order of the counterexample,
once expanded, has its reason rendered after the poll. -/
theorem C11_rejection_reason_when_expanded_witness :
    "out of stock" ∈ OrdersView.shownRejectionReasons
      (OrdersView.render
        (OrdersView.loadOrders (Except.ok (some [Sample.orderRejected]))
          (OrdersView.toggleExpanded 1 OrdersView.init))) :=
  (C11_rejection_reason_when_expanded (OrdersView.toggleExpanded 1 OrdersView.init)
    [Sample.orderRejected] "out of stock").mpr
    ⟨Sample.orderRejected, by decide, by decide, by decide, by decide, by decide⟩

/-- The reject path and the approve path of one order differ. -/
theorem reject_path_ne_approve_path (base : String) :
    base ++ "/reject/" ≠ base ++ "/approve/" := by
  intro h
  have hd := congrArg String.data h
  rw [String.data_append, String.data_append] at hd
  have := List.append_cancel_left hd
  revert this
  decide

/-- C12. rejectOrder adds exactly one request to those issued: a POST to
/api/orders/ followed by the id and /reject/, whose body is the object with the
one key reason holding the reason passed, or the empty string when the reason is
omitted (undefined).  approveOrder adds exactly one request: a POST to
/api/orders/ followed by the id and /approve/, with no body.  For one id the two
paths differ. -/
theorem C12_reject_and_approve_requests (orderId reason : JsVal) (log : RequestLog) :
    (reason ≠ JsVal.undefined →
      Orders.rejectOrder orderId reason log =
        log ++ [{ method := "POST", path := "/api/orders/" ++ orderId.toStr ++ "/reject/",
                  body := some (JsVal.obj [("reason", reason)]) }]) ∧
    Orders.rejectOrder orderId JsVal.undefined log =
      log ++ [{ method := "POST", path := "/api/orders/" ++ orderId.toStr ++ "/reject/",
                body := some (JsVal.obj [("reason", JsVal.str "")]) }] ∧
    Orders.approveOrder orderId log =
      log ++ [{ method := "POST", path := "/api/orders/" ++ orderId.toStr ++ "/approve/",
                body := none }] ∧
    (∀ r ∈ Orders.rejectOrder orderId reason [], ∀ a ∈ Orders.approveOrder orderId [],
      r.method = "POST" ∧ a.method = "POST" ∧ r.path ≠ a.path) := by
  refine ⟨?_, rfl, rfl, ?_⟩
  · intro hne
    cases reason with
    | undefined => exact absurd rfl hne
    | null => rfl
    | bool b => rfl
    | num n => rfl
    | str x => rfl
    | arr items => rfl
    | obj fields => rfl
  · intro r hr a ha
    simp only [Orders.rejectOrder, Orders.approveOrder, apiPost, List.nil_append,
      List.mem_singleton] at hr ha
    subst hr
    subst ha
    exact ⟨rfl, rfl, reject_path_ne_approve_path _⟩

/-- C12, at a concrete input: rejecting order 12 with the reason out of stock
issues the one POST of the specification. -/
theorem C12_reject_and_approve_requests_witness :
    Orders.rejectOrder (JsVal.num 12) (JsVal.str "out of stock") [] =
      [{ method := "POST", path := "/api/orders/12/reject/",
         body := some (JsVal.obj [("reason", JsVal.str "out of stock")]) }] :=
  (C12_reject_and_approve_requests (JsVal.num 12) (JsVal.str "out of stock") []).1
    (fun h => JsVal.noConfusion h)

/-- A tab whose button is rendered for a role has exactly one content panel. -/
theorem tabContent_of_button (role tab : String) (h : tab ∈ Dashboard.tabButtons role) :
    ∃ p, Dashboard.tabContent tab role = [p] := by
  unfold Dashboard.tabButtons at h
  by_cases hF : role = "FARMER"
  · subst hF
    simp at h
    rcases h with rfl | rfl | rfl | rfl | rfl <;> simp [Dashboard.tabContent]
  by_cases hC : role = "CUSTOMER"
  · subst hC
    simp at h
    rcases h with rfl | rfl | rfl | rfl <;> simp [Dashboard.tabContent]
  by_cases hA : role = "ADMIN"
  · subst hA
    simp at h
    rcases h with rfl | rfl | rfl | rfl <;> simp [Dashboard.tabContent]
  simp [hF, hC, hA] at h
  rcases h with rfl | rfl | rfl
  · exact ⟨Panel.feed, by simp [Dashboard.tabContent, hF, hC, hA]⟩
  · exact ⟨Panel.cart, by simp [Dashboard.tabContent, hF, hC, hA]⟩
  · exact ⟨Panel.profile, by simp [Dashboard.tabContent, hF, hC, hA]⟩

/-- The feed button is rendered for every role. -/
theorem feed_mem_tabButtons (role : String) : "feed" ∈ Dashboard.tabButtons role := by
  simp [Dashboard.tabButtons]

/-- Every state reached from a loaded dashboard keeps the user record and has an
active tab whose button is rendered for the role. -/
theorem Dashboard.run_activeTab (events : List Dashboard.TabEvent) (d : DashboardState) (user : User)
    (hu : d.user = some user) (ht : d.activeTab ∈ Dashboard.tabButtons user.role) :
    (Dashboard.run d events).user = some user ∧
    (Dashboard.run d events).activeTab ∈ Dashboard.tabButtons user.role := by
  induction events generalizing d with
  | nil => exact ⟨hu, ht⟩
  | cons ev rest ih =>
    apply ih
    · cases ev with
      | clickTab tab =>
        by_cases hb : tab ∈ Dashboard.tabButtons user.role
        · simp [Dashboard.step, hu, hb]
        · simp [Dashboard.step, hu, hb]
      | postCreated => simp [Dashboard.step, Dashboard.handlePostCreated, hu]
    · cases ev with
      | clickTab tab =>
        by_cases hb : tab ∈ Dashboard.tabButtons user.role
        · simp [Dashboard.step, hu, hb]
        · simpa [Dashboard.step, hu, hb] using ht
      | postCreated =>
        simpa [Dashboard.step, Dashboard.handlePostCreated] using feed_mem_tabButtons user.role

/-- C13. For every user record and every value of activeTab, the farmer post
form panel and the farmer orders panel are among the rendered panels only when
the role is FARMER, the customer orders panel only when it is CUSTOMER, the admin
panel only when it is ADMIN.  In every state reached from the loaded dashboard by
clicks on the tab buttons rendered for the role (and by the post-created
callback), the page is rendered with exactly one content panel. -/
theorem C13_role_panels (user : User) (activeTab : String) (events : List Dashboard.TabEvent) :
    (Panel.myPosts ∈ Dashboard.tabContent activeTab user.role → user.role = "FARMER") ∧
    (Panel.farmerOrders ∈ Dashboard.tabContent activeTab user.role → user.role = "FARMER") ∧
    (Panel.customerOrders ∈ Dashboard.tabContent activeTab user.role →
      user.role = "CUSTOMER") ∧
    (Panel.admin ∈ Dashboard.tabContent activeTab user.role → user.role = "ADMIN") ∧
    (∀ d : DashboardState, d.user = some user →
      Dashboard.render d =
        DashboardView.page (Dashboard.tabButtons user.role)
          (Dashboard.tabContent d.activeTab user.role)) ∧
    (∃ p, Dashboard.render (Dashboard.run (Dashboard.loaded user) events) =
      DashboardView.page (Dashboard.tabButtons user.role) [p]) := by
  refine ⟨?_, ?_, ?_, ?_, ?_, ?_⟩
  · intro h
    by_contra hr
    simp [Dashboard.tabContent, hr] at h
  · intro h
    by_contra hr
    simp [Dashboard.tabContent, hr] at h
  · intro h
    by_contra hr
    simp [Dashboard.tabContent, hr] at h
  · intro h
    by_contra hr
    simp [Dashboard.tabContent, hr] at h
  · intro d hd
    simp [Dashboard.render, hd]
  · obtain ⟨hu, ht⟩ := Dashboard.run_activeTab events (Dashboard.loaded user) user rfl
      (feed_mem_tabButtons user.role)
    obtain ⟨p, hp⟩ := tabContent_of_button _ _ ht
    exact ⟨p, by simp [Dashboard.render, hu, hp]⟩

/-- C13, at a concrete input: a farmer who clicks Orders, then a button that is
not rendered for farmers, sees the farmer orders panel alone. -/
theorem C13_role_panels_witness :
    Dashboard.render
        (Dashboard.run (Dashboard.loaded Sample.farmer)
          [Dashboard.TabEvent.clickTab "orders", Dashboard.TabEvent.clickTab "admin"]) =
      DashboardView.page ["feed", "myPosts", "orders", "cart", "profile"]
        [Panel.farmerOrders] ∧
    (Panel.customerOrders ∈ Dashboard.tabContent "orders" Sample.farmer.role →
      Sample.farmer.role = "CUSTOMER") :=
  ⟨by decide, (C13_role_panels Sample.farmer "orders" []).2.2.1⟩

/-- C14, as stated, fails.  When the login succeeds and the who-am-I call is
rejected with the body detail: Token expired, the error shown is that detail and
not the fixed fallback. -/
theorem C14_detail_shown_instead_of_fallback :
    (Login.handleLoginSubmit Sample.apiMeFails Sample.loginForm Sample.world).1.error =
      JsVal.str "Token expired" ∧
    "Token expired" ≠ "Login failed. Check username/password." := by
  refine ⟨rfl, by decide⟩

/-- C14, amended.  When the credential call succeeds and the who-am-I call fails,
handleLoginSubmit does not navigate (the location is unchanged), clears the
status text, and sets as error what extractError derives from the failure with
the fallback Login failed. Check username/password.; that fallback itself is the
error when the failure carries no response body (or a falsy one). -/
theorem C14_me_failure_after_login (api : Api) (c : LoginState) (w : World) (t : String)
    (e : JsErr) (hlogin : api.login c.username c.password = Except.ok t)
    (hme : api.me = Except.error e) :
    (∀ x ∈ effectsOf w (Login.handleLoginSubmit api c w).2, x.isNavigate = false) ∧
    (Login.handleLoginSubmit api c w).2.location = w.location ∧
    (Login.handleLoginSubmit api c w).1.status = "" ∧
    (Login.handleLoginSubmit api c w).1.error =
      Login.extractError e "Login failed. Check username/password." ∧
    (e.data.truthy = false →
      (Login.handleLoginSubmit api c w).1.error =
        JsVal.str "Login failed. Check username/password.") := by
  have hrun : Login.handleLoginSubmit api c w =
      (Login.loginCatch e (Login.setStatus "Logging in..." (Login.resetMessages c)),
        ((((w.emit Effect.preventDefault).emit (Effect.login c.username c.password)).storageSetItem
          "accessToken" t).setAuthToken t).emit Effect.me) := by
    simp [Login.handleLoginSubmit, hlogin, hme]
  have htr : (Login.handleLoginSubmit api c w).2.trace =
      w.trace ++ [Effect.preventDefault, Effect.login c.username c.password,
        Effect.storageSetItem "accessToken" t, Effect.setAuthToken t, Effect.me] := by
    rw [hrun]
    simp [World.emit, World.storageSetItem, World.setAuthToken]
  refine ⟨?_, ?_, ?_, ?_, ?_⟩
  · rw [effectsOf_append w _ _ htr]
    simp [Effect.isNavigate]
  · rw [hrun]
    rfl
  · rw [hrun]
    rfl
  · rw [hrun]
    rfl
  · intro hd
    rw [hrun]
    simp [Login.loginCatch, Login.setError, Login.extractError, hd]

/-- C14 amended, at a concrete input: a who-am-I call that fails without a
response leaves the fixed fallback as the error and the location unchanged. -/
theorem C14_me_failure_after_login_witness :
    (Login.handleLoginSubmit Sample.apiMeUnreachable Sample.loginForm Sample.world).1.error =
      JsVal.str "Login failed. Check username/password." ∧
    (Login.handleLoginSubmit Sample.apiMeUnreachable Sample.loginForm Sample.world).2.location =
      "/login" :=
  have h := C14_me_failure_after_login Sample.apiMeUnreachable Sample.loginForm Sample.world
    "tok" ⟨none⟩ rfl rfl
  ⟨h.2.2.2.2 rfl, h.2.1⟩

/-- What extractError returns, shape by shape: the fallback for a missing or falsy
body, a non-empty string body itself, a truthy detail, and for an object without a
truthy detail whose first key is non-empty, the first element of the array under
that key (undefined when the array is empty) or the fallback when the value under
it is not an array. -/
theorem extractError_cases (fallback : String) :
    Login.extractError ⟨none⟩ fallback = JsVal.str fallback ∧
    (∀ body : JsVal, body.truthy = false →
      Login.extractError ⟨some body⟩ fallback = JsVal.str fallback) ∧
    (∀ s : String, s ≠ "" →
      Login.extractError ⟨some (JsVal.str s)⟩ fallback = JsVal.str s) ∧
    (∀ (fields : List (String × JsVal)),
      ((JsVal.obj fields).getProp "detail").truthy = true →
      Login.extractError ⟨some (JsVal.obj fields)⟩ fallback =
        (JsVal.obj fields).getProp "detail") ∧
    (∀ (k : String) (v : JsVal) (rest : List (String × JsVal)),
      ((JsVal.obj ((k, v) :: rest)).getProp "detail").truthy = false → k ≠ "" →
      Login.extractError ⟨some (JsVal.obj ((k, v) :: rest))⟩ fallback =
        if v.isArray then v.first else JsVal.str fallback) := by
  refine ⟨rfl, ?_, ?_, ?_, ?_⟩
  · intro body hb
    simp [Login.extractError, JsErr.data, hb]
  · intro s hs
    simp [Login.extractError, JsErr.data, JsVal.truthy, JsVal.isString, hs]
  · intro fields hd
    have h1 : (JsVal.obj fields).truthy = true := rfl
    have h2 : (JsVal.obj fields).isString = false := rfl
    simp [Login.extractError, JsErr.data, h1, h2, hd]
  · intro k v rest hd hk
    have h1 : (JsVal.obj ((k, v) :: rest)).truthy = true := rfl
    have h2 : (JsVal.obj ((k, v) :: rest)).isString = false := rfl
    have hkeys : (JsVal.obj ((k, v) :: rest)).keys.head? = some k := rfl
    have hget : (JsVal.obj ((k, v) :: rest)).getProp k = v := by
      simp [JsVal.getProp, JsVal.entries]
    simp [Login.extractError, JsErr.data, h1, h2, hd, hkeys, hk, hget]

/-- C15, the code at the failing input.  For a response body whose first key
holds an empty list, extractError returns undefined and not the fallback; a login
rejected with such a body ends with the status cleared and the error undefined, a
falsy value for which no error element is rendered. -/
theorem C15_extractError_empty_list_gives_undefined :
    Login.extractError ⟨some (JsVal.obj [("username", JsVal.arr [])])⟩
        "Login failed. Check username/password." = JsVal.undefined ∧
    (Login.handleLoginSubmit Sample.apiLoginEmptyList Sample.loginForm Sample.world).1.error =
      JsVal.undefined ∧
    (Login.handleLoginSubmit Sample.apiLoginEmptyList Sample.loginForm Sample.world).1.status =
      "" ∧
    JsVal.undefined.truthy = false := by
  refine ⟨rfl, rfl, rfl, rfl⟩

/-- After a registration request of handleRegisterSubmit has resolved, the login
request carries the username and password of the form as typed, while the
payload carried the trimmed username and the same password. -/
theorem handleRegisterSubmit_login_credentials (api : Api) (c : LoginState) (w : World)
    (hv : customerFormValid c)
    (hreg : (if c.mode = "register-farmer" then api.registerFarmer (Login.registerPayload c)
      else api.registerCustomer (Login.registerPayload c)) = Except.ok ()) :
    (∃ rest, effectsOf w (Login.handleRegisterSubmit api c w).2 =
      Effect.preventDefault ::
        (if c.mode = "register-farmer" then Effect.registerFarmer (Login.registerPayload c)
          else Effect.registerCustomer (Login.registerPayload c)) ::
        Effect.login c.username c.password :: rest) ∧
    (Login.registerPayload c).username = jsTrim c.username ∧
    (Login.registerPayload c).password = c.password := by
  refine ⟨?_, rfl, rfl⟩
  obtain ⟨h1, h2, h3, h4, h5, h6⟩ := hv
  have h5' : ¬ jsLength c.password < 8 := by omega
  by_cases hm : c.mode = "register-farmer"
  · rw [if_pos hm] at hreg
    obtain ⟨rest, hr⟩ := loginAfterRegister_trace api c.username c.password
      (Login.setStatus "Account created! Logging you in..."
        (Login.setStatus "Creating account..." (Login.resetMessages c)))
      ((w.emit Effect.preventDefault).emit (Effect.registerFarmer (Login.registerPayload c)))
    refine ⟨rest, effectsOf_append w _ _ ?_⟩
    simp only [Login.handleRegisterSubmit]
    rw [if_neg h1, if_neg h2, if_neg h3, if_neg h4, if_neg h5', if_neg (not_not.mpr h6),
      if_pos hm, if_pos hm, hreg]
    simp only [hr]
    simp [World.emit]
  · rw [if_neg hm] at hreg
    obtain ⟨rest, hr⟩ := loginAfterRegister_trace api c.username c.password
      (Login.setStatus "Account created! Logging you in..."
        (Login.setStatus "Creating account..." (Login.resetMessages c)))
      ((w.emit Effect.preventDefault).emit (Effect.registerCustomer (Login.registerPayload c)))
    refine ⟨rest, effectsOf_append w _ _ ?_⟩
    simp only [Login.handleRegisterSubmit]
    rw [if_neg h1, if_neg h2, if_neg h3, if_neg h4, if_neg h5', if_neg (not_not.mpr h6),
      if_neg hm, if_neg hm, hreg]
    simp only [hr]
    simp [World.emit]

/-- The same for handleFarmerRegisterSubmit. -/
theorem handleFarmerRegisterSubmit_login_credentials (api : Api) (c : LoginState) (w : World)
    (hv : farmerFormValid c)
    (hreg : api.registerFarmer (Login.farmerPayload c) = Except.ok ()) :
    (∃ rest, effectsOf w (Login.handleFarmerRegisterSubmit api c w).2 =
      Effect.preventDefault :: Effect.registerFarmer (Login.farmerPayload c) ::
        Effect.login c.username c.password :: rest) ∧
    (Login.farmerPayload c).username = jsTrim c.username ∧
    (Login.farmerPayload c).password = c.password := by
  refine ⟨?_, rfl, rfl⟩
  obtain ⟨h1, h2, h3, h4, hf, h5, h6⟩ := hv
  have h5' : ¬ jsLength c.password < 8 := by omega
  obtain ⟨rest, hr⟩ := loginAfterRegister_trace api c.username c.password
    (Login.setStatus "Farm account created! Logging you in..."
      (Login.setStatus "Creating farmer account..." (Login.resetMessages c)))
    ((w.emit Effect.preventDefault).emit (Effect.registerFarmer (Login.farmerPayload c)))
  refine ⟨rest, effectsOf_append w _ _ ?_⟩
  simp only [Login.handleFarmerRegisterSubmit]
  rw [if_neg h1, if_neg h2, if_neg h3, if_neg h4, if_neg hf, if_neg h5',
    if_neg (not_not.mpr h6), hreg]
  simp only [hr]
  simp [World.emit]

/-- C16, the code at the failing input.  A valid registration form whose username
is typed with a blank before and after it is registered under the trimmed
username ana, and the login that follows is sent with the untrimmed username, in
handleRegisterSubmit and in handleFarmerRegisterSubmit alike; the passwords
agree. -/
theorem C16_login_username_not_trimmed :
    customerFormValid Sample.customerFormPadded ∧
    farmerFormValid Sample.farmerFormPadded ∧
    effectsOf Sample.world
        (Login.handleRegisterSubmit Sample.apiOk Sample.customerFormPadded Sample.world).2 =
      [Effect.preventDefault,
        Effect.registerCustomer
          { username := "ana", email := "ana@example.com", password := "password1",
            first_name := "Ana", last_name := "Cruz", farm_name := none },
        Effect.login " ana " "password1", Effect.storageSetItem "accessToken" "tok",
        Effect.setAuthToken "tok", Effect.me, Effect.navigate "/dashboard"] ∧
    effectsOf Sample.world
        (Login.handleFarmerRegisterSubmit Sample.apiOk Sample.farmerFormPadded Sample.world).2 =
      [Effect.preventDefault,
        Effect.registerFarmer
          { username := "ana", email := "ana@example.com", password := "password1",
            first_name := "Ana", last_name := "Cruz", farm_name := some "Hill Farm" },
        Effect.login " ana " "password1", Effect.storageSetItem "accessToken" "tok",
        Effect.setAuthToken "tok", Effect.me, Effect.navigate "/dashboard"] ∧
    " ana " ≠ "ana" := by
  refine ⟨by decide, by decide, by decide, by decide, by decide⟩

/-- The storage after the shared end of the registration handlers: unchanged
when the login fails, the token written when it succeeds. -/
theorem loginAfterRegister_storage (api : Api) (u p : String) (c : LoginState) (w : World) :
    (Login.loginAfterRegister api u p c w).2.localStorage =
      match api.login u p with
      | Except.error _ => w.localStorage
      | Except.ok t => (w.localStorage.setItem "accessToken" t).setItem "accessToken" t := by
  unfold Login.loginAfterRegister
  cases api.login u p with
  | error e => simp [World.emit]
  | ok t =>
    cases api.me with
    | error e => simp [World.emit, World.storageSetItem, World.setAuthToken]
    | ok m => simp [World.emit, World.storageSetItem, World.setAuthToken, World.navigate]

/-- The storage after handleLoginSubmit. -/
theorem handleLoginSubmit_storage (api : Api) (c : LoginState) (w : World) :
    (Login.handleLoginSubmit api c w).2.localStorage =
      match api.login c.username c.password with
      | Except.error _ => w.localStorage
      | Except.ok t => (w.localStorage.setItem "accessToken" t).setItem "accessToken" t := by
  unfold Login.handleLoginSubmit
  cases api.login c.username c.password with
  | error e => simp [World.emit]
  | ok t =>
    cases api.me with
    | error e => simp [World.emit, World.storageSetItem, World.setAuthToken]
    | ok m => simp [World.emit, World.storageSetItem, World.setAuthToken, World.navigate]

/-- A storage that is either unchanged or had a token written keeps holding a
token if it held one. -/
theorem storage_keeps_token (ls ls2 : Storage) (r : Except JsErr String)
    (h2 : ls2 =
      match r with
      | Except.error _ => ls
      | Except.ok t => (ls.setItem "accessToken" t).setItem "accessToken" t)
    (h : (ls.getItem "accessToken").isSome = true) :
    (ls2.getItem "accessToken").isSome = true := by
  subst h2
  cases r with
  | error e => exact h
  | ok t => simp [Storage.getItem_setItem]

/-- The storage after handleRegisterSubmit is the one before, or the one with the
token of the login written. -/
theorem handleRegisterSubmit_storage (api : Api) (c : LoginState) (w : World) :
    (Login.handleRegisterSubmit api c w).2.localStorage = w.localStorage ∨
    (Login.handleRegisterSubmit api c w).2.localStorage =
      match api.login c.username c.password with
      | Except.error _ => w.localStorage
      | Except.ok t => (w.localStorage.setItem "accessToken" t).setItem "accessToken" t := by
  by_cases hv : customerFormValid c
  · obtain ⟨h1, h2, h3, h4, h5, h6⟩ := hv
    have h5' : ¬ jsLength c.password < 8 := by omega
    simp only [Login.handleRegisterSubmit]
    rw [if_neg h1, if_neg h2, if_neg h3, if_neg h4, if_neg h5', if_neg (not_not.mpr h6)]
    by_cases hm : c.mode = "register-farmer"
    · rw [if_pos hm]
      cases api.registerFarmer (Login.registerPayload c) with
      | error e => exact Or.inl (by simp [World.emit])
      | ok _ =>
        refine Or.inr ?_
        simp only [loginAfterRegister_storage]
        rfl
    · rw [if_neg hm]
      cases api.registerCustomer (Login.registerPayload c) with
      | error e => exact Or.inl (by simp [World.emit])
      | ok _ =>
        refine Or.inr ?_
        simp only [loginAfterRegister_storage]
        rfl
  · exact Or.inl (by rw [(handleRegisterSubmit_of_invalid api c w hv).2]; rfl)

/-- The storage after handleFarmerRegisterSubmit is the one before, or the one
with the token of the login written. -/
theorem handleFarmerRegisterSubmit_storage (api : Api) (c : LoginState) (w : World) :
    (Login.handleFarmerRegisterSubmit api c w).2.localStorage = w.localStorage ∨
    (Login.handleFarmerRegisterSubmit api c w).2.localStorage =
      match api.login c.username c.password with
      | Except.error _ => w.localStorage
      | Except.ok t => (w.localStorage.setItem "accessToken" t).setItem "accessToken" t := by
  by_cases hv : farmerFormValid c
  · obtain ⟨h1, h2, h3, h4, hf, h5, h6⟩ := hv
    have h5' : ¬ jsLength c.password < 8 := by omega
    simp only [Login.handleFarmerRegisterSubmit]
    rw [if_neg h1, if_neg h2, if_neg h3, if_neg h4, if_neg hf, if_neg h5',
      if_neg (not_not.mpr h6)]
    cases api.registerFarmer (Login.farmerPayload c) with
    | error e => exact Or.inl (by simp [World.emit])
    | ok _ =>
      refine Or.inr ?_
      simp only [loginAfterRegister_storage]
      rfl
  · exact Or.inl (by rw [(handleFarmerRegisterSubmit_of_invalid api c w hv).2]; rfl)

/-- No function of the Login page removes a stored token: if the key accessToken
holds a value before one of the three submit handlers or the mount effect runs,
it holds a value afterwards. -/
theorem login_page_keeps_token (api : Api) (c : LoginState) (w : World)
    (h : (w.localStorage.getItem "accessToken").isSome = true) :
    ((Login.handleLoginSubmit api c w).2.localStorage.getItem "accessToken").isSome = true ∧
    ((Login.handleRegisterSubmit api c w).2.localStorage.getItem "accessToken").isSome = true ∧
    ((Login.handleFarmerRegisterSubmit api c w).2.localStorage.getItem
      "accessToken").isSome = true ∧
    ((Login.mountEffect w).localStorage.getItem "accessToken").isSome = true := by
  refine ⟨?_, ?_, ?_, ?_⟩
  · exact storage_keeps_token _ _ _ (handleLoginSubmit_storage api c w) h
  · rcases handleRegisterSubmit_storage api c w with h2 | h2
    · rw [h2]; exact h
    · exact storage_keeps_token _ _ _ h2 h
  · rcases handleFarmerRegisterSubmit_storage api c w with h2 | h2
    · rw [h2]; exact h
    · exact storage_keeps_token _ _ _ h2 h
  · unfold Login.mountEffect
    cases hg : w.localStorage.getItem "accessToken" with
    | none => simp [hg] at h
    | some token =>
      by_cases ht : token = ""
      · simp [ht, hg]
      · simp [ht, World.setAuthToken, World.emit, Storage.getItem_setItem]

/-- The route guard admits a storage whose accessToken is a non-empty string. -/
theorem app_dashboard_of_token (ls : Storage) (t : String)
    (h : ls.getItem "accessToken" = some t) (ht : t ≠ "") :
    App ls "/dashboard" = Element.dashboard := by
  rw [app_at_dashboard]
  simp [ProtectedRoute, tokenMissing, h, ht]

/-- C17, as stated, fails.  When the login resolves with the empty string as
access token and the who-am-I call fails, the handler leaves the empty string
under accessToken, and ProtectedRoute then redirects /dashboard to /login. -/
theorem C17_empty_token_not_admitted :
    (Login.handleLoginSubmit Sample.apiEmptyToken Sample.loginForm
        Sample.world).2.localStorage.getItem "accessToken" = some "" ∧
    App (Login.handleLoginSubmit Sample.apiEmptyToken Sample.loginForm
        Sample.world).2.localStorage "/dashboard" = Element.navigate "/login" true := by
  decide

/-- C17, amended.  In every login or registration run in which the login resolved
with token t, whatever the outcome of the who-am-I call that follows and so also
when it fails, the storage holds t under accessToken when the handler finishes,
and if t is not the empty string the route /dashboard then renders the Dashboard;
this for handleLoginSubmit, for handleRegisterSubmit and for
handleFarmerRegisterSubmit.  Moreover no submit handler and no mount effect of the
Login page removes a stored token. -/
theorem C17_token_kept_after_failed_me (api : Api) (c : LoginState) (w : World) (t : String)
    (hlogin : api.login c.username c.password = Except.ok t) :
    ((Login.handleLoginSubmit api c w).2.localStorage.getItem "accessToken" = some t ∧
      (t ≠ "" →
        App (Login.handleLoginSubmit api c w).2.localStorage "/dashboard" =
          Element.dashboard)) ∧
    (customerFormValid c →
      (if c.mode = "register-farmer" then api.registerFarmer (Login.registerPayload c)
        else api.registerCustomer (Login.registerPayload c)) = Except.ok () →
      (Login.handleRegisterSubmit api c w).2.localStorage.getItem "accessToken" = some t ∧
      (t ≠ "" →
        App (Login.handleRegisterSubmit api c w).2.localStorage "/dashboard" =
          Element.dashboard)) ∧
    (farmerFormValid c →
      api.registerFarmer (Login.farmerPayload c) = Except.ok () →
      (Login.handleFarmerRegisterSubmit api c w).2.localStorage.getItem "accessToken" =
        some t ∧
      (t ≠ "" →
        App (Login.handleFarmerRegisterSubmit api c w).2.localStorage "/dashboard" =
          Element.dashboard)) ∧
    (∀ w2 : World, (w2.localStorage.getItem "accessToken").isSome = true →
      ((Login.handleLoginSubmit api c w2).2.localStorage.getItem "accessToken").isSome = true ∧
      ((Login.handleRegisterSubmit api c w2).2.localStorage.getItem
        "accessToken").isSome = true ∧
      ((Login.handleFarmerRegisterSubmit api c w2).2.localStorage.getItem
        "accessToken").isSome = true ∧
      ((Login.mountEffect w2).localStorage.getItem "accessToken").isSome = true) := by
  refine ⟨?_, ?_, ?_, fun w2 h => login_page_keeps_token api c w2 h⟩
  · have hg : (Login.handleLoginSubmit api c w).2.localStorage.getItem "accessToken" =
        some t := by
      rw [handleLoginSubmit_storage, hlogin]
      exact Storage.getItem_setItem _ _ _
    exact ⟨hg, app_dashboard_of_token _ t hg⟩
  · rintro ⟨h1, h2, h3, h4, h5, h6⟩ hreg
    have h5' : ¬ jsLength c.password < 8 := by omega
    have hg : (Login.handleRegisterSubmit api c w).2.localStorage.getItem "accessToken" =
        some t := by
      simp only [Login.handleRegisterSubmit]
      rw [if_neg h1, if_neg h2, if_neg h3, if_neg h4, if_neg h5', if_neg (not_not.mpr h6)]
      by_cases hm : c.mode = "register-farmer"
      · rw [if_pos hm] at hreg
        rw [if_pos hm, hreg]
        simp only [loginAfterRegister_storage, hlogin]
        exact Storage.getItem_setItem _ _ _
      · rw [if_neg hm] at hreg
        rw [if_neg hm, hreg]
        simp only [loginAfterRegister_storage, hlogin]
        exact Storage.getItem_setItem _ _ _
    exact ⟨hg, app_dashboard_of_token _ t hg⟩
  · rintro ⟨h1, h2, h3, h4, hf, h5, h6⟩ hreg
    have h5' : ¬ jsLength c.password < 8 := by omega
    have hg : (Login.handleFarmerRegisterSubmit api c w).2.localStorage.getItem
        "accessToken" = some t := by
      simp only [Login.handleFarmerRegisterSubmit]
      rw [if_neg h1, if_neg h2, if_neg h3, if_neg h4, if_neg hf, if_neg h5',
        if_neg (not_not.mpr h6), hreg]
      simp only [loginAfterRegister_storage, hlogin]
      exact Storage.getItem_setItem _ _ _
    exact ⟨hg, app_dashboard_of_token _ t hg⟩

/-- C17 amended, at a concrete input: after a login with token tok whose
who-am-I call fails, the storage holds tok and the guard renders the Dashboard;
the same after a customer registration. -/
theorem C17_token_kept_after_failed_me_witness :
    App (Login.handleLoginSubmit Sample.apiMeFails Sample.loginForm
        Sample.world).2.localStorage "/dashboard" = Element.dashboard ∧
    (Login.handleRegisterSubmit Sample.apiMeFails Sample.customerForm
        Sample.world).2.localStorage.getItem "accessToken" = some "tok" :=
  have h := C17_token_kept_after_failed_me Sample.apiMeFails Sample.customerForm
    Sample.world "tok" rfl
  have h2 := C17_token_kept_after_failed_me Sample.apiMeFails Sample.loginForm
    Sample.world "tok" rfl
  ⟨h2.1.2 (by decide), (h.2.1 (by decide) rfl).1⟩

end AtongAni
